/-
Verification of the freight rate calculation engine:
a shallow embedding of `calculators/europe_calculator.py` and
`calculators/multimodal_calculator.py` in Lean 4, with theorems checking the
natural-language specification against the embedded code.

Modelling conventions:
* Python floats are modelled as real numbers (`ℝ`); numeric data parsed from
  CSV/JSON files (always decimal literals) is carried as rationals (`ℚ`) and
  coerced into `ℝ` where arithmetic happens.
* Python dicts are association lists in insertion order; `dget` is `dict.get`.
* Python `round` is round-half-to-even (`pyRound`); `round(x, n)` scales by
  `10^n` first.
* External services (geocoding, road routing) are oracles passed in as
  functions from the attempt number to that attempt's outcome; the embedding
  counts external calls and cache writes explicitly.
* `datetime` values are modelled as integers ordered like timestamps; the
  current month is a parameter.
-/

import Mathlib

/-- `dict.get key`: first binding of `k` in an association list. -/
def dget {κ β : Type} [BEq κ] (m : List (κ × β)) (k : κ) : Option β :=
  match m with
  | [] => none
  | (k2, v) :: rest => if k == k2 then some v else dget rest k

/-- Python dict assignment `m[k] = v`: overwrite the binding if the key is
present, otherwise append the new binding (insertion order). -/
def dinsert {κ β : Type} [BEq κ] (m : List (κ × β)) (k : κ) (v : β) : List (κ × β) :=
  if (dget m k).isSome then m.map (fun p => if p.1 == k then (k, v) else p)
  else m ++ [(k, v)]

/-- Python `round(x)`: round half to even (banker's rounding). On non-half
fractional parts it agrees with rounding to the nearest integer. -/
noncomputable def pyRound (x : ℝ) : ℤ :=
  if Int.fract x = 1 / 2 then 2 * round (x / 2) else round x

/-- Python `round(x, 2)`. -/
noncomputable def pyRound2 (x : ℝ) : ℝ := (pyRound (x * 100) : ℝ) / 100

/-- Python `round(x, 1)`. -/
noncomputable def pyRound1 (x : ℝ) : ℝ := (pyRound (x * 10) : ℝ) / 10

/-- `math.atan2 y x` (Python). -/
noncomputable def atan2 (y x : ℝ) : ℝ :=
  if 0 < x then Real.arctan (y / x)
  else if x < 0 then
    (if 0 ≤ y then Real.arctan (y / x) + Real.pi else Real.arctan (y / x) - Real.pi)
  else
    (if 0 < y then Real.pi / 2 else if y < 0 then -(Real.pi / 2) else 0)

/-- `math.radians`. -/
noncomputable def radians (x : ℝ) : ℝ := x * Real.pi / 180

/-! ## Europe calculator (`europe_calculator.py`) -/

/-- `DENSITY_FACTOR = 1850` (kg per chargeable LDM). -/
def DENSITY_FACTOR : ℝ := 1850

/-- One row of `regions_dict`: postal-key → region info. -/
structure RegionInfo where
  region : String
  place_name : String
  country_code : String
deriving DecidableEq

/-- One row of `rates_dict`: a region pair's rate record. -/
structure RateInfo where
  distance_km : ℚ
  base_rate_per_ldm : ℚ
  base_rate_per_km : ℚ
  coefficient : ℚ
  seasonal_factors : List (String × ℚ)
  urgency_factors : List (String × ℚ)
deriving DecidableEq

/-- The contents of `correction_factors.json`, with one field per key the
code reads (`distance_factors`, `ldm_factors`, `weight_factors` buckets and
the three scalar corrections). -/
structure CorrectionFactors where
  base_rate_ldm_correction : ℚ
  base_rate_km_correction : ℚ
  general_correction : ℚ
  distance_0_500 : ℚ
  distance_500_1000 : ℚ
  distance_1000_1500 : ℚ
  distance_1500_2000 : ℚ
  distance_2000_plus : ℚ
  ldm_0_1 : ℚ
  ldm_1_5 : ℚ
  ldm_5_10 : ℚ
  ldm_10_plus : ℚ
  weight_0_1000 : ℚ
  weight_1000_3000 : ℚ
  weight_3000_6000 : ℚ
  weight_6000_plus : ℚ
deriving DecidableEq

/-- The in-memory state of `FreightCalculator` after `load_data` /
`load_geocode_cache`: the four reference tables plus the geocode cache.
`region_details` maps a region to its JSON object, itself an association
list (the code reads the `center_lat` / `center_lon` keys). -/
structure EuropeState where
  regions_dict : List (String × RegionInfo)
  rates_dict : List ((String × String) × RateInfo)
  region_details : List (String × List (String × ℚ))
  correction_factors : CorrectionFactors
  geocode_cache : List (String × (ℝ × ℝ))

/-- The prefix-shortening loop of `get_region_by_postal`: try the prefix of
length `n`, then `n - 1`, …, down to length `1` (mirrors
`for i in range(len(postal_code) - 1, 0, -1)`), scanning `regions_dict` in
table order for the first key starting with `country_code + "_" + prefix`. -/
def region_prefix_loop (st : EuropeState) (postal_code country_code : String) :
    ℕ → Option (String × String)
  | 0 => none
  | n + 1 =>
    match st.regions_dict.find?
        (fun kv => kv.1.startsWith (country_code ++ "_" ++ postal_code.take (n + 1))) with
    | some kv => some (kv.2.region, kv.2.place_name)
    | none => region_prefix_loop st postal_code country_code n

/-- `FreightCalculator.get_region_by_postal`: exact key lookup first, then the
descending prefix scan; `(None, None)` becomes `none`. -/
def get_region_by_postal (st : EuropeState) (postal_code country_code : String) :
    Option (String × String) :=
  match dget st.regions_dict (country_code ++ "_" ++ postal_code) with
  | some ri => some (ri.region, ri.place_name)
  | none => region_prefix_loop st postal_code country_code (postal_code.length - 1)

/-- Python truthiness of an optional number read with `.get(...)`:
`None` and `0` are falsy. -/
def truthyNum (o : Option ℚ) : Bool :=
  match o with
  | none => false
  | some x => !(x == 0)

/-- `FreightCalculator.get_distance_from_matrix`: direct rate row, then
reversed pair, then haversine between region centers times road factor 1.3
(rounded to 1 decimal), else the 1000 km default.  The region-center branch
is guarded by Python truthiness: empty detail dicts and missing or zero
coordinates fall through to the default. -/
noncomputable def get_distance_from_matrix (st : EuropeState) (from_region to_region : String) : ℝ :=
  match dget st.rates_dict (from_region, to_region) with
  | some rate_info => (rate_info.distance_km : ℝ)
  | none =>
  match dget st.rates_dict (to_region, from_region) with
  | some rate_info => (rate_info.distance_km : ℝ)
  | none =>
    let from_details := (dget st.region_details from_region).getD []
    let to_details := (dget st.region_details to_region).getD []
    if !from_details.isEmpty && !to_details.isEmpty then
      let from_lat := dget from_details "center_lat"
      let from_lon := dget from_details "center_lon"
      let to_lat := dget to_details "center_lat"
      let to_lon := dget to_details "center_lon"
      if truthyNum from_lat && truthyNum from_lon && truthyNum to_lat && truthyNum to_lon then
        let from_lat_rad := radians ((from_lat.getD 0 : ℚ) : ℝ)
        let from_lon_rad := radians ((from_lon.getD 0 : ℚ) : ℝ)
        let to_lat_rad := radians ((to_lat.getD 0 : ℚ) : ℝ)
        let to_lon_rad := radians ((to_lon.getD 0 : ℚ) : ℝ)
        let delta_lat := to_lat_rad - from_lat_rad
        let delta_lon := to_lon_rad - from_lon_rad
        let a := Real.sin (delta_lat / 2) ^ 2 +
          Real.cos from_lat_rad * Real.cos to_lat_rad * Real.sin (delta_lon / 2) ^ 2
        let c := 2 * atan2 (Real.sqrt a) (Real.sqrt (1 - a))
        let distance := 6371 * c
        let road_distance := distance * 1.3
        pyRound1 road_distance
      else 1000
    else 1000

/-- `get_distance_correction_factor`: distance buckets. -/
noncomputable def get_distance_correction_factor (st : EuropeState) (distance_km : ℝ) : ℚ :=
  if distance_km < 500 then st.correction_factors.distance_0_500
  else if distance_km < 1000 then st.correction_factors.distance_500_1000
  else if distance_km < 1500 then st.correction_factors.distance_1000_1500
  else if distance_km < 2000 then st.correction_factors.distance_1500_2000
  else st.correction_factors.distance_2000_plus

/-- `get_ldm_correction_factor`: LDM buckets. -/
noncomputable def get_ldm_correction_factor (st : EuropeState) (ldm : ℝ) : ℚ :=
  if ldm ≤ 1 then st.correction_factors.ldm_0_1
  else if ldm ≤ 5 then st.correction_factors.ldm_1_5
  else if ldm ≤ 10 then st.correction_factors.ldm_5_10
  else st.correction_factors.ldm_10_plus

/-- `get_weight_correction_factor`: weight buckets. -/
noncomputable def get_weight_correction_factor (st : EuropeState) (weight_kg : ℝ) : ℚ :=
  if weight_kg ≤ 1000 then st.correction_factors.weight_0_1000
  else if weight_kg ≤ 3000 then st.correction_factors.weight_1000_3000
  else if weight_kg ≤ 6000 then st.correction_factors.weight_3000_6000
  else st.correction_factors.weight_6000_plus

/-- The hard-coded seasonal table used when no direct rate row exists. -/
def default_seasonal_factors : List (String × ℚ) :=
  [("1", 0.9), ("2", 0.9), ("3", 0.95), ("4", 1.0), ("5", 1.0), ("6", 1.05),
   ("7", 0.9), ("8", 0.85), ("9", 1.1), ("10", 1.15), ("11", 1.1), ("12", 1.0)]

/-- `FreightCalculator.calculate_rate`: the Europe pricing pipeline. -/
noncomputable def calculate_rate (st : EuropeState) (distance_km ldm weight_kg : ℝ)
    (from_region to_region : String) (month : Option ℕ) : ℝ :=
  let chargeable_ldm := max ldm (weight_kg / DENSITY_FACTOR)
  let cf := st.correction_factors
  let params : ℚ × ℚ × List (String × ℚ) :=
    match dget st.rates_dict (from_region, to_region) with
    | none =>
      (350 * cf.base_rate_ldm_correction, 0.45 * cf.base_rate_km_correction,
        default_seasonal_factors)
    | some rate_info =>
      (rate_info.base_rate_per_ldm * cf.base_rate_ldm_correction,
        rate_info.base_rate_per_km * cf.base_rate_km_correction,
        rate_info.seasonal_factors)
  let base_rate_per_ldm := params.1
  let base_rate_per_km := params.2.1
  let seasonal_factors := params.2.2
  let distance_factor := get_distance_correction_factor st distance_km
  let ldm_correction := get_ldm_correction_factor st ldm
  let weight_correction := get_weight_correction_factor st weight_kg
  let volume_correction := min ldm_correction weight_correction
  let base_cost : ℝ :=
    max ((base_rate_per_ldm : ℝ) * chargeable_ldm ^ (0.9 : ℝ))
        ((base_rate_per_km : ℝ) * distance_km ^ (0.95 : ℝ) * chargeable_ldm ^ (0.9 : ℝ)) *
      (distance_factor : ℝ) * (volume_correction : ℝ)
  let base_cost := base_cost * (cf.general_correction : ℝ)
  let base_cost :=
    match month with
    | none => base_cost
    | some m =>
      if m ≠ 0 then
        match dget seasonal_factors (toString m) with
        | some f => base_cost * (f : ℝ)
        | none => base_cost
      else base_cost
  let insurance := base_cost * 0.035
  let co2_surcharge := weight_kg * 0.02 / 1000
  let final_cost := base_cost + insurance + co2_surcharge
  pyRound2 final_cost

/-! ### Geocoding, road routing and the request entry point -/

/-- Outcome of one external geocoding attempt: an exception, a successful
request that found no location, or a found location. -/
inductive GeoAttempt where
  | err : GeoAttempt
  | notFound : GeoAttempt
  | found : ℝ → ℝ → GeoAttempt

/-- Result of `get_coordinates`: the returned value (`none` models the
`(None, None)` tuple), the geocode cache afterwards, the number of external
geocoding requests issued, and the number of cache-file writes
(`save_geocode_cache` calls). -/
structure GeoResult where
  coords : Option (ℝ × ℝ)
  cache : List (String × (ℝ × ℝ))
  externalCalls : ℕ
  cacheSaves : ℕ

/-- The retry loop of `get_coordinates` (`max_retries = 3`), run over the
list of remaining attempt indices.  On a found location the coordinates are
cached and the cache is persisted; on the last attempt a failure returns
`(None, None)`; otherwise the loop retries. -/
def geocode_attempts (cache : List (String × (ℝ × ℝ))) (oracle : ℕ → GeoAttempt)
    (address : String) : List ℕ → ℕ → GeoResult
  | [], calls => ⟨none, cache, calls, 0⟩
  | attempt :: rest, calls =>
    match oracle attempt with
    | .found lat lon =>
      ⟨some (lat, lon), dinsert cache address (lat, lon), calls + 1, 1⟩
    | .notFound =>
      if rest.isEmpty then ⟨none, cache, calls + 1, 0⟩
      else geocode_attempts cache oracle address rest (calls + 1)
    | .err =>
      if rest.isEmpty then ⟨none, cache, calls + 1, 0⟩
      else geocode_attempts cache oracle address rest (calls + 1)

/-- `FreightCalculator.get_coordinates`: answer from the cache when the
address is a key, otherwise run the external retry loop. -/
def get_coordinates (cache : List (String × (ℝ × ℝ))) (oracle : ℕ → GeoAttempt)
    (address : String) : GeoResult :=
  match dget cache address with
  | some coords => ⟨some coords, cache, 0, 0⟩
  | none => geocode_attempts cache oracle address [0, 1, 2] 0

/-- Outcome of one external routing attempt: an exception, a non-200 HTTP
status, a response without a usable route, or a route with a length in
meters. -/
inductive RoadAttempt where
  | err : RoadAttempt
  | badStatus : RoadAttempt
  | noRoute : RoadAttempt
  | ok : ℝ → RoadAttempt

/-- The retry loop of `get_road_distance` (`max_retries = 3`): any failure on
the last attempt returns `None`, otherwise the loop retries; a found route
returns its length divided by 1000 (kilometers).  The second component
counts the external routing requests issued. -/
noncomputable def road_attempts (oracle : ℕ → RoadAttempt) : List ℕ → ℕ → Option ℝ × ℕ
  | [], calls => (none, calls)
  | attempt :: rest, calls =>
    match oracle attempt with
    | .ok meters => (some (meters / 1000), calls + 1)
    | .err =>
      if rest.isEmpty then (none, calls + 1) else road_attempts oracle rest (calls + 1)
    | .badStatus =>
      if rest.isEmpty then (none, calls + 1) else road_attempts oracle rest (calls + 1)
    | .noRoute =>
      if rest.isEmpty then (none, calls + 1) else road_attempts oracle rest (calls + 1)

/-- `FreightCalculator.get_road_distance`: `None` when either coordinate
tuple contains `None`, otherwise the external retry loop. -/
noncomputable def get_road_distance (oracle : ℕ → RoadAttempt)
    (coord1 coord2 : Option (ℝ × ℝ)) : Option ℝ × ℕ :=
  match coord1, coord2 with
  | some _, some _ => road_attempts oracle [0, 1, 2] 0
  | _, _ => (none, 0)

/-- The success record returned by `get_rate_of_transportation`. -/
structure EuropeQuote where
  distance : ℝ
  ldm : ℝ
  weight : ℝ
  chargeable_ldm : ℝ
  month : ℕ
  rate : ℝ

/-- A return value of `get_rate_of_transportation`: either an error dict or
a quote dict. -/
inductive TransportOutcome where
  | error : String → TransportOutcome
  | ok : EuropeQuote → TransportOutcome

/-- Whether the outcome is the error dict. -/
def TransportOutcome.isError : TransportOutcome → Bool
  | .error _ => true
  | .ok _ => false

/-- `FreightCalculator.get_rate_of_transportation`.  `geoOracle` gives each
address its per-attempt geocoding outcomes, `roadOracle` the routing
outcomes, `current_month` stands for `datetime.datetime.now().month`.
Besides the outcome, the embedding returns the total number of external
(geocoding plus routing) calls issued. -/
noncomputable def get_rate_of_transportation (st : EuropeState)
    (geoOracle : String → ℕ → GeoAttempt) (roadOracle : ℕ → RoadAttempt)
    (current_month : ℕ)
    (from_country_code from_postal_code to_country_code to_postal_code : String)
    (ldm weight : ℝ) : TransportOutcome × ℕ :=
  let from_rp := get_region_by_postal st from_postal_code from_country_code
  if from_country_code == to_country_code && from_postal_code == to_postal_code then
    (.error "Origin and destination cannot be the same.", 0)
  else
    match from_rp with
    | none =>
      (.error "Country code or postal code not found: {from_country_code}, {from_postal_code}", 0)
    | some (from_region, from_place) =>
      match get_region_by_postal st to_postal_code to_country_code with
      | none =>
        (.error "Country code or postal code not found: {from_country_code}, {from_postal_code}", 0)
      | some (to_region, to_place) =>
        let from_address := from_postal_code ++ ", " ++ from_place ++ ", " ++ from_country_code
        let to_address := to_postal_code ++ ", " ++ to_place ++ ", " ++ to_country_code
        let r1 := get_coordinates st.geocode_cache (geoOracle from_address) from_address
        let r2 := get_coordinates r1.cache (geoOracle to_address) to_address
        let geoCalls := r1.externalCalls + r2.externalCalls
        let mkQuote : ℝ → ℕ → TransportOutcome × ℕ := fun distance calls =>
          let rate := calculate_rate st distance ldm weight from_region to_region
            (some current_month)
          let chargeable_ldm := max ldm (weight / DENSITY_FACTOR)
          (.ok ⟨pyRound2 distance, ldm, weight, pyRound2 chargeable_ldm, current_month, rate⟩,
            calls)
        match r1.coords, r2.coords with
        | some c1, some c2 =>
          let rd := get_road_distance roadOracle (some c1) (some c2)
          match rd.1 with
          | some d =>
            if d = 0 then
              mkQuote (get_distance_from_matrix st from_region to_region) (geoCalls + rd.2)
            else mkQuote d (geoCalls + rd.2)
          | none =>
            mkQuote (get_distance_from_matrix st from_region to_region) (geoCalls + rd.2)
        | _, _ =>
          mkQuote (get_distance_from_matrix st from_region to_region) geoCalls

/-! ## Multimodal calculator (`multimodal_calculator.py`) -/

/-- `VOLATILITY_ALPHA = 1.2`. -/
def VOLATILITY_ALPHA : ℝ := 1.2

/-- One row of the `ports` dict. -/
structure PortInfo where
  name : String
  country : String
  region : String
  latitude : ℚ
  longitude : ℚ
deriving DecidableEq

/-- One basic-rate record (`avg_rate`, `carriers`, `notes`); `avg_rate` is a
real because the fallback path synthesizes it from a computed distance. -/
structure BasicRate where
  avg_rate : ℝ
  carriers : String
  notes : String

/-- A stored basic-rate row (CSV data, rational rate). -/
structure BasicRateRow where
  avg_rate : ℚ
  carriers : String
  notes : String
deriving DecidableEq

/-- One fuel-surcharge record. -/
structure FuelSurchargeInfo where
  min_percent : ℚ
  max_percent : ℚ
  date_updated : String
deriving DecidableEq

/-- One ecological-charge record. -/
structure EcoChargeInfo where
  amount : ℚ
  currency : String
  date_updated : String
deriving DecidableEq

/-- One seasonal-factor record. -/
structure SeasonalInfo where
  factor : ℚ
  date_updated : String
deriving DecidableEq

/-- One port-congestion record. -/
structure CongestionInfo where
  amount : ℚ
  currency : String
  date_updated : String
deriving DecidableEq

/-- One crisis window; dates are integers ordered like the parsed
`datetime` values. -/
structure CrisisInfo where
  start_date : ℤ
  end_date : ℤ
  multiplier : ℚ
  description : String
deriving DecidableEq

/-- One freight-index record. -/
structure FreightIndexInfo where
  current_value : ℚ
  base_value : ℚ
  weight : ℚ
  description : String
  date_updated : String
deriving DecidableEq

/-- One route-specific index weight. -/
structure RouteWeightInfo where
  weight : ℚ
  date_updated : String
deriving DecidableEq

/-- The in-memory state of `MultimodalFreightCalculator` after the CSV
loaders have run: nested dicts become nested association lists. -/
structure MultimodalState where
  ports : List (String × PortInfo)
  basic_rates : List (String × List (String × List (String × BasicRateRow)))
  fuel_surcharges : List (String × List (String × FuelSurchargeInfo))
  ecological_charges : List (String × List (String × List (String × EcoChargeInfo)))
  seasonal_factors : List (String × List (String × List (String × SeasonalInfo)))
  port_congestion : List (String × List (String × List (String × CongestionInfo)))
  crisis_coefficients : List (String × List (String × List CrisisInfo))
  freight_indices : List (String × FreightIndexInfo)
  route_index_weights : List (String × List (String × RouteWeightInfo))
deriving DecidableEq

/-- `get_port_region`. -/
def get_port_region (st : MultimodalState) (port_id : String) : Option String :=
  (dget st.ports port_id).map (·.region)

/-- `get_basic_rate`: nested dict access, `KeyError` becomes `none`. -/
def get_basic_rate (st : MultimodalState) (origin_region destination_region container_type : String) :
    Option BasicRateRow :=
  (dget st.basic_rates origin_region).bind fun m =>
    (dget m destination_region).bind fun m2 => dget m2 container_type

/-- `get_fuel_surcharge`. -/
def get_fuel_surcharge (st : MultimodalState) (origin_region destination_region : String) :
    Option FuelSurchargeInfo :=
  (dget st.fuel_surcharges origin_region).bind fun m => dget m destination_region

/-- `get_ecological_charge`. -/
def get_ecological_charge (st : MultimodalState) (region charge_type container_type : String) :
    Option EcoChargeInfo :=
  (dget st.ecological_charges region).bind fun m =>
    (dget m charge_type).bind fun m2 => dget m2 container_type

/-- `get_seasonal_factor`. -/
def get_seasonal_factor (st : MultimodalState) (origin_region destination_region quarter : String) :
    Option SeasonalInfo :=
  (dget st.seasonal_factors origin_region).bind fun m =>
    (dget m destination_region).bind fun m2 => dget m2 quarter

/-- Python `max` over a nonempty list, folded left like the built-in. -/
def listMax (x : ℚ) (xs : List ℚ) : ℚ := xs.foldl max x

/-- `get_crisis_multiplier`: the maximum multiplier among windows whose
`[start_date, end_date]` interval contains `today`; 1.0 when none is active
or the region pair has no entry (`KeyError`). -/
def get_crisis_multiplier (st : MultimodalState) (today : ℤ)
    (origin_region destination_region : String) : ℚ :=
  match (dget st.crisis_coefficients origin_region).bind fun m => dget m destination_region with
  | none => 1
  | some crisis_list =>
    let active := crisis_list.filter fun c =>
      decide (c.start_date ≤ today) && decide (today ≤ c.end_date)
    match active.map (·.multiplier) with
    | [] => 1
    | x :: xs => listMax x xs

/-- Python `" " in s`: the string contains a space character. -/
def strContainsSpace (s : String) : Bool := s.data.any (fun c => c == ' ')

/-- Python `s.replace(" ", "")`: drop every space character. -/
def strRemoveSpaces (s : String) : String := ⟨s.data.filter (fun c => !(c == ' '))⟩

/-- `get_route_key`: direct key, generalized North America keys, the
intra-region key, then keys with spaces stripped from one side. -/
def get_route_key (st : MultimodalState) (origin_region destination_region : String) :
    Option String :=
  let direct_route := origin_region ++ "-" ++ destination_region
  if (dget st.route_index_weights direct_route).isSome then some direct_route
  else
    let genO := origin_region == "North America East" || origin_region == "North America West"
    let genRouteO := "North America" ++ "-" ++ destination_region
    if genO && (dget st.route_index_weights genRouteO).isSome then some genRouteO
    else
      let genD := destination_region == "North America East" ||
        destination_region == "North America West"
      let genRouteD := origin_region ++ "-" ++ "North America"
      if genD && (dget st.route_index_weights genRouteD).isSome then some genRouteD
      else
        let intra_route := "Intra-" ++ origin_region
        if origin_region == destination_region &&
            (dget st.route_index_weights intra_route).isSome then some intra_route
        else
          let no_space_o := (strRemoveSpaces origin_region) ++ "-" ++ destination_region
          if strContainsSpace origin_region && (dget st.route_index_weights no_space_o).isSome then
            some no_space_o
          else
            let no_space_d := origin_region ++ "-" ++ (strRemoveSpaces destination_region)
            if strContainsSpace destination_region &&
                (dget st.route_index_weights no_space_d).isSome then some no_space_d
            else none

/-- `get_index_weights_for_route`: weights for the route key, else for the
reverse route key, else `none`. -/
def get_index_weights_for_route (st : MultimodalState) (origin_region destination_region : String) :
    Option (List (String × RouteWeightInfo)) :=
  match (get_route_key st origin_region destination_region).bind
      (dget st.route_index_weights) with
  | some w => some w
  | none =>
    (get_route_key st destination_region origin_region).bind (dget st.route_index_weights)

/-- `calculate_distance`: haversine distance in nautical miles
(Earth radius 3440.07). -/
noncomputable def calculate_distance (lat1 lon1 lat2 lon2 : ℝ) : ℝ :=
  let lat1_rad := radians lat1
  let lon1_rad := radians lon1
  let lat2_rad := radians lat2
  let lon2_rad := radians lon2
  let dlon := lon2_rad - lon1_rad
  let dlat := lat2_rad - lat1_rad
  let a := Real.sin (dlat / 2) ^ 2 +
    Real.cos lat1_rad * Real.cos lat2_rad * Real.sin (dlon / 2) ^ 2
  let c := 2 * atan2 (Real.sqrt a) (Real.sqrt (1 - a))
  3440.07 * c

/-- `get_current_quarter`, as a function of the current month. -/
def get_current_quarter (month : ℕ) : String :=
  "Q" ++ toString ((month - 1) / 3 + 1)

/-- `calculate_weighted_index_change`: iterate the loaded freight indices;
with route weights present, only indices named in them contribute
(weighted by the route weight), otherwise every index contributes with its
default weight; normalize by the total weight used when it is positive. -/
noncomputable def calculate_weighted_index_change (st : MultimodalState)
    (origin_region destination_region : String) : ℝ :=
  let acc : ℝ × ℝ :=
    match get_index_weights_for_route st origin_region destination_region with
    | some route_weights =>
      st.freight_indices.foldl
        (fun acc p =>
          match dget route_weights p.1 with
          | some w =>
            let change_percent :=
              (((p.2.current_value : ℝ) - (p.2.base_value : ℝ)) / (p.2.base_value : ℝ)) * 100
            (acc.1 + change_percent * (w.weight : ℝ), acc.2 + (w.weight : ℝ))
          | none => acc)
        (0, 0)
    | none =>
      st.freight_indices.foldl
        (fun acc p =>
          let change_percent :=
            (((p.2.current_value : ℝ) - (p.2.base_value : ℝ)) / (p.2.base_value : ℝ)) * 100
          (acc.1 + change_percent * (p.2.weight : ℝ), acc.2 + (p.2.weight : ℝ)))
        (0, 0)
  if 0 < acc.2 then acc.1 / acc.2 else acc.1

/-- `calculate_fallback_rate`: a distance-based synthetic rate (the port ids
are assumed present, as at the call site). -/
noncomputable def calculate_fallback_rate (st : MultimodalState)
    (origin destination container_type : String) : BasicRate :=
  let po := (dget st.ports origin).getD ⟨"", "", "", 0, 0⟩
  let pd := (dget st.ports destination).getD ⟨"", "", "", 0, 0⟩
  let distance := calculate_distance (po.latitude : ℝ) (po.longitude : ℝ)
    (pd.latitude : ℝ) (pd.longitude : ℝ)
  let base_rate := distance * 0.5
  let base_rate :=
    if container_type == "20dv" then base_rate * 1.0
    else if container_type == "40dv" then base_rate * 1.4
    else if container_type == "40hc" then base_rate * 1.5
    else base_rate
  let base_rate := max base_rate 1000
  ⟨base_rate, "Estimated rate", "Computed from distance"⟩

/-- The `ECA` + `CLS` ecological-charge loop for one region: sum of the
amounts of the charges that exist. -/
def eco_charges_total (st : MultimodalState) (region container_type : String) : ℚ :=
  (match get_ecological_charge st region "ECA" container_type with
   | some c => c.amount
   | none => 0) +
  (match get_ecological_charge st region "CLS" container_type with
   | some c => c.amount
   | none => 0)

/-- The port-congestion loop for one port: scan the port's congestion levels
in table order and take the amount of the first level that has an entry for
the container type (0 when the port is absent or no level matches). -/
def congestion_amount (st : MultimodalState) (port_id container_type : String) : ℚ :=
  match dget st.port_congestion port_id with
  | none => 0
  | some levels =>
    match levels.find? (fun lv => (dget lv.2 container_type).isSome) with
    | some lv => ((dget lv.2 container_type).getD ⟨0, "", ""⟩).amount
    | none => 0

/-- The seasonal factor applied by `calculate_freight_rate`: the stored
factor when present, else 1.0. -/
def seasonal_factor_or_one (st : MultimodalState) (o d quarter : String) : ℚ :=
  match get_seasonal_factor st o d quarter with
  | some sd => sd.factor
  | none => 1

/-- The result record of `calculate_freight_rate` (the fields of the returned
dict that the engine computes; `calculation_date`, the
`origin_congestion_level` / `destination_congestion_level` labels and the
optional `route_key` / `index_weights` echo of static data are omitted). -/
structure FreightRateResult where
  origin : String
  origin_region : String
  destination : String
  destination_region : String
  container_type : String
  weight : ℝ
  base_rate : ℝ
  carriers : String
  notes : String
  weighted_index_change : ℝ
  volatility_factor : ℝ
  crisis_multiplier : ℚ
  adjusted_rate : ℝ
  fuel_surcharge : ℝ
  fuel_surcharge_percent : ℝ
  eco_charge_origin : ℝ
  eco_charge_destination : ℝ
  seasonal_factor : ℚ
  current_quarter : String
  congestion_charge_origin : ℝ
  congestion_charge_destination : ℝ
  total_rate : ℝ
  distance : ℝ

/-- `MultimodalFreightCalculator.calculate_freight_rate`.  `today` stands for
`datetime.now()` in the crisis check and `now_month` for the current month in
the quarter computation. -/
noncomputable def calculate_freight_rate (st : MultimodalState) (today : ℤ) (now_month : ℕ)
    (origin destination container_type : String) (weight : ℝ) :
    Except String FreightRateResult :=
  match dget st.ports origin with
  | none => .error ("Origin port " ++ origin ++ " not found")
  | some po =>
  match dget st.ports destination with
  | none => .error ("Destination port " ++ destination ++ " not found")
  | some pd =>
    let origin_region := po.region
    let destination_region := pd.region
    let distance := calculate_distance (po.latitude : ℝ) (po.longitude : ℝ)
      (pd.latitude : ℝ) (pd.longitude : ℝ)
    let basic_rate_data : BasicRate :=
      match get_basic_rate st origin_region destination_region container_type with
      | some row => ⟨(row.avg_rate : ℝ), row.carriers, row.notes⟩
      | none => calculate_fallback_rate st origin destination container_type
    let base_rate := basic_rate_data.avg_rate
    let weighted_index_change := calculate_weighted_index_change st origin_region destination_region
    let volatility_factor := (1 + weighted_index_change / 100) ^ VOLATILITY_ALPHA
    let adjusted_rate := base_rate * volatility_factor
    let crisis_multiplier := get_crisis_multiplier st today origin_region destination_region
    let adjusted_rate := adjusted_rate * (crisis_multiplier : ℝ)
    let fuel_data := get_fuel_surcharge st origin_region destination_region
    let fuel_surcharge_percent : ℝ :=
      match fuel_data with
      | some fs => ((fs.min_percent : ℝ) + (fs.max_percent : ℝ)) / 2 / 100
      | none => 0
    let fuel_surcharge : ℝ :=
      match fuel_data with
      | some _ => adjusted_rate * fuel_surcharge_percent
      | none => 0
    let eco_charge_origin := (eco_charges_total st origin_region container_type : ℝ)
    let eco_charge_destination := (eco_charges_total st destination_region container_type : ℝ)
    let current_quarter := get_current_quarter now_month
    let seasonal_factor : ℚ :=
      seasonal_factor_or_one st origin_region destination_region current_quarter
    let adjusted_rate := adjusted_rate * (seasonal_factor : ℝ)
    let congestion_charge_origin := (congestion_amount st origin container_type : ℝ)
    let congestion_charge_destination := (congestion_amount st destination container_type : ℝ)
    let total_rate := adjusted_rate + fuel_surcharge + eco_charge_origin +
      eco_charge_destination + congestion_charge_origin + congestion_charge_destination
    .ok
      { origin := origin
        origin_region := origin_region
        destination := destination
        destination_region := destination_region
        container_type := container_type
        weight := weight
        base_rate := (pyRound base_rate : ℝ)
        carriers := basic_rate_data.carriers
        notes := basic_rate_data.notes
        weighted_index_change := pyRound2 weighted_index_change
        volatility_factor := (pyRound (volatility_factor * 10000) : ℝ) / 10000
        crisis_multiplier := crisis_multiplier
        adjusted_rate := (pyRound adjusted_rate : ℝ)
        fuel_surcharge := (pyRound fuel_surcharge : ℝ)
        fuel_surcharge_percent := pyRound1 (fuel_surcharge_percent * 100)
        eco_charge_origin := (pyRound eco_charge_origin : ℝ)
        eco_charge_destination := (pyRound eco_charge_destination : ℝ)
        seasonal_factor := seasonal_factor
        current_quarter := current_quarter
        congestion_charge_origin := (pyRound congestion_charge_origin : ℝ)
        congestion_charge_destination := (pyRound congestion_charge_destination : ℝ)
        total_rate := (pyRound total_rate : ℝ)
        distance := pyRound2 distance }

/-! ## Auxiliary definitions used by the theorems -/

/-- Nonnegativity of every correction factor in `correction_factors.json`
(real-world factor tables are nonnegative multipliers). -/
def CorrectionFactorsNonneg (cf : CorrectionFactors) : Prop :=
  0 ≤ cf.base_rate_ldm_correction ∧ 0 ≤ cf.base_rate_km_correction ∧
  0 ≤ cf.general_correction ∧
  0 ≤ cf.distance_0_500 ∧ 0 ≤ cf.distance_500_1000 ∧ 0 ≤ cf.distance_1000_1500 ∧
  0 ≤ cf.distance_1500_2000 ∧ 0 ≤ cf.distance_2000_plus ∧
  0 ≤ cf.ldm_0_1 ∧ 0 ≤ cf.ldm_1_5 ∧ 0 ≤ cf.ldm_5_10 ∧ 0 ≤ cf.ldm_10_plus ∧
  0 ≤ cf.weight_0_1000 ∧ 0 ≤ cf.weight_1000_3000 ∧ 0 ≤ cf.weight_3000_6000 ∧
  0 ≤ cf.weight_6000_plus

/-- Nonnegativity of the rates and seasonal factors of one rate row. -/
def RateInfoNonneg (ri : RateInfo) : Prop :=
  0 ≤ ri.base_rate_per_ldm ∧ 0 ≤ ri.base_rate_per_km ∧
  ∀ p ∈ ri.seasonal_factors, 0 ≤ p.2

/-- Nonnegativity of all the Europe reference data entering the pricing
formula. -/
def EuropeStateNonneg (st : EuropeState) : Prop :=
  CorrectionFactorsNonneg st.correction_factors ∧
  ∀ p ∈ st.rates_dict, RateInfoNonneg p.2

/-- The descending list of prefix lengths `[n, n-1, …, 1]` tried by the
postal-code fallback (`range(len - 1, 0, -1)`). -/
def descPrefixLengths (n : ℕ) : List ℕ := (List.range n).reverse.map (· + 1)

/-- The great-circle distance (haversine formula, Earth radius 6371 km)
between two points, exactly as computed inline by
`get_distance_from_matrix` before the road factor is applied. -/
noncomputable def haversine_km (lat1 lon1 lat2 lon2 : ℝ) : ℝ :=
  let lat1_rad := radians lat1
  let lon1_rad := radians lon1
  let lat2_rad := radians lat2
  let lon2_rad := radians lon2
  let delta_lat := lat2_rad - lat1_rad
  let delta_lon := lon2_rad - lon1_rad
  let a := Real.sin (delta_lat / 2) ^ 2 +
    Real.cos lat1_rad * Real.cos lat2_rad * Real.sin (delta_lon / 2) ^ 2
  let c := 2 * atan2 (Real.sqrt a) (Real.sqrt (1 - a))
  6371 * c

/-- The total rate as the claim words it (fuel surcharge applied to the rate
after volatility, crisis AND seasonal adjustment); written from the claim,
to be compared against the embedded code. -/
noncomputable def spec_total_rate_fuel_after_seasonal
    (base_rate vf crisis seasonal fuel_pct ecoO ecoD congO congD : ℝ) : ℝ :=
  let adjusted := base_rate * vf * crisis * seasonal
  (pyRound (adjusted + adjusted * fuel_pct + ecoO + ecoD + congO + congD) : ℝ)

/-! ## Concrete states used by witnesses and counterexamples -/

/-- All-ones correction factors. -/
def cfOnes : CorrectionFactors := ⟨1, 1, 1, 1, 1, 1, 1, 1, 1, 1, 1, 1, 1, 1, 1, 1⟩

/-- A rate row for the DE_WEST → FR_NORTH pair. -/
def exRateInfo : RateInfo := ⟨1200, 100, 0.5, 1, [("6", 1)], []⟩

/-- Europe state with a single stored rate row. -/
def exEuropeState : EuropeState :=
  { regions_dict := [("DE_10115", ⟨"DE_WEST", "Berlin", "DE"⟩)]
    rates_dict := [(("DE_WEST", "FR_NORTH"), exRateInfo)]
    region_details := []
    correction_factors := cfOnes
    geocode_cache := [] }

/-- Europe state whose two regions both have a stored center latitude of 0
(present but falsy to Python). -/
def exStZero : EuropeState :=
  { regions_dict := []
    rates_dict := []
    region_details :=
      [("A", [("center_lat", 0), ("center_lon", 10)]),
       ("B", [("center_lat", 0), ("center_lon", 10)])]
    correction_factors := cfOnes
    geocode_cache := [] }

/-- Europe state for the same-origin check: two different countries whose
postal code 10 resolves to the same region R. -/
def exStSameRegion : EuropeState :=
  { regions_dict := [("DE_10", ⟨"R", "P", "DE"⟩), ("FR_10", ⟨"R", "Q", "FR"⟩)]
    rates_dict := []
    region_details := []
    correction_factors := cfOnes
    geocode_cache := [] }

/-- A geocoding oracle on which every attempt raises. -/
def geoAllErr : String → ℕ → GeoAttempt := fun _ _ => .err

/-- A routing oracle on which every attempt raises. -/
def roadAllErr : ℕ → RoadAttempt := fun _ => .err

/-- Multimodal state: one rate, a 10% fuel surcharge and a Q1 seasonal
factor of 2 between regions RegA and RegB. -/
def exMM : MultimodalState :=
  { ports :=
      [("P1", ⟨"Port One", "C1", "RegA", 0, 0⟩), ("P2", ⟨"Port Two", "C2", "RegB", 0, 10⟩)]
    basic_rates := [("RegA", [("RegB", [("40hc", ⟨1000, "X", "Y"⟩)])])]
    fuel_surcharges := [("RegA", [("RegB", ⟨10, 10, "d"⟩)])]
    ecological_charges := []
    seasonal_factors := [("RegA", [("RegB", [("Q1", ⟨2, "d"⟩)])])]
    port_congestion := []
    crisis_coefficients := []
    freight_indices := []
    route_index_weights := [] }

/-- Multimodal state: one rate of 1000 and an ecological charge of 0.56 in
the origin region, nothing else. -/
def exMMFraction : MultimodalState :=
  { ports :=
      [("P1", ⟨"Port One", "C1", "RegA", 0, 0⟩), ("P2", ⟨"Port Two", "C2", "RegB", 0, 10⟩)]
    basic_rates := [("RegA", [("RegB", [("40hc", ⟨1000, "X", "Y"⟩)])])]
    fuel_surcharges := []
    ecological_charges := [("RegA", [("ECA", [("40hc", ⟨0.56, "EUR", "d"⟩)])])]
    seasonal_factors := []
    port_congestion := []
    crisis_coefficients := []
    freight_indices := []
    route_index_weights := [] }

/-- Multimodal state with one crisis window. -/
def exMMCrisis : MultimodalState :=
  { ports := [("P1", ⟨"Port One", "C1", "RegA", 0, 0⟩)]
    basic_rates := []
    fuel_surcharges := []
    ecological_charges := []
    seasonal_factors := []
    port_congestion := []
    crisis_coefficients :=
      [("RegA", [("RegB", [⟨0, 10, 1.5, "w1"⟩, ⟨5, 20, 1.8, "w2"⟩])])]
    freight_indices := []
    route_index_weights := [] }

/-- Multimodal state with route-override weights whose index names match no
loaded freight index. -/
def exMMWeights : MultimodalState :=
  { ports := []
    basic_rates := []
    fuel_surcharges := []
    ecological_charges := []
    seasonal_factors := []
    port_congestion := []
    crisis_coefficients := []
    freight_indices := [("FBX", ⟨1500, 1000, 0.5, "idx", "d"⟩)]
    route_index_weights := [("A-B", [("SCFI", ⟨1, "d"⟩)])] }

/-- The first example port. -/
def exPort1 : PortInfo := ⟨"Port One", "C1", "RegA", 0, 0⟩

/-- The second example port. -/
def exPort2 : PortInfo := ⟨"Port Two", "C2", "RegB", 0, 10⟩

/-- The example basic-rate row (1000 between RegA and RegB). -/
def exBRR : BasicRateRow := ⟨1000, "X", "Y"⟩

/-- The example fuel surcharge (10% to 10%). -/
def exFS : FuelSurchargeInfo := ⟨10, 10, "d"⟩

/-! ## Helper lemmas -/

/-- Rounding to the nearest integer is monotone. -/
theorem round_le_round_of_le {x y : ℝ} (h : x ≤ y) : round x ≤ round y := by
  rw [round_eq, round_eq]
  exact Int.floor_mono (by linarith)

/-- At a half-integer, `round` lands exactly half a unit above. -/
theorem round_cast_of_fract_half {x : ℝ} (h : Int.fract x = 1 / 2) :
    (round x : ℝ) = x + 1 / 2 := by
  have hx : x = (⌊x⌋ : ℝ) + 1 / 2 := by
    conv_lhs => rw [← Int.floor_add_fract x, h]
  have h2 : x + 1 / 2 = ((⌊x⌋ + 1 : ℤ) : ℝ) := by
    have hc : ((⌊x⌋ + 1 : ℤ) : ℝ) = (⌊x⌋ : ℝ) + 1 := by
      push_cast
      ring
    rw [hc]
    linarith [hx]
  rw [round_eq, h2, Int.floor_intCast]

/-- Banker's rounding never exceeds round-half-up. -/
theorem pyRound_le_round (x : ℝ) : pyRound x ≤ round x := by
  unfold pyRound
  by_cases h : Int.fract x = 1 / 2
  · rw [if_pos h]
    have hr : (round x : ℝ) = x + 1 / 2 := round_cast_of_fract_half h
    have hfl : (round (x / 2) : ℝ) ≤ x / 2 + 1 / 2 := by
      rw [round_eq]
      exact Int.floor_le _
    have hZ : 2 * round (x / 2) < round x + 1 := by
      have hcast : ((2 * round (x / 2) : ℤ) : ℝ) < ((round x + 1 : ℤ) : ℝ) := by
        push_cast
        linarith
      exact_mod_cast hcast
    omega
  · rw [if_neg h]

/-- Banker's rounding is at most one below round-half-up. -/
theorem round_sub_one_le_pyRound (x : ℝ) : round x - 1 ≤ pyRound x := by
  unfold pyRound
  by_cases h : Int.fract x = 1 / 2
  · rw [if_pos h]
    have hr : (round x : ℝ) = x + 1 / 2 := round_cast_of_fract_half h
    have hfl : x / 2 + 1 / 2 - 1 < (round (x / 2) : ℝ) := by
      rw [round_eq]
      exact Int.sub_one_lt_floor _
    have hZ : round x - 2 < 2 * round (x / 2) := by
      have hcast : ((round x - 2 : ℤ) : ℝ) < ((2 * round (x / 2) : ℤ) : ℝ) := by
        push_cast
        linarith
      exact_mod_cast hcast
    omega
  · rw [if_neg h]
    omega

/-- Python rounding (half to even) is monotone. -/
theorem pyRound_mono {x y : ℝ} (h : x ≤ y) : pyRound x ≤ pyRound y := by
  have hround := round_le_round_of_le h
  rcases lt_or_eq_of_le hround with hlt | heq
  · have h1 := pyRound_le_round x
    have h2 := round_sub_one_le_pyRound y
    omega
  · by_contra hc
    push_neg at hc
    have h1 := pyRound_le_round x
    have h2 := round_sub_one_le_pyRound y
    have hpy : pyRound y = round y - 1 := by omega
    have hpx : pyRound x = round x := by omega
    have hfy : Int.fract y = 1 / 2 := by
      by_contra hfy
      have : pyRound y = round y := by unfold pyRound; rw [if_neg hfy]
      omega
    have hyv : y = (round y : ℝ) - 1 / 2 := by
      have := round_cast_of_fract_half hfy
      linarith
    by_cases hfx : Int.fract x = 1 / 2
    · have hxv : x = (round x : ℝ) - 1 / 2 := by
        have := round_cast_of_fract_half hfx
        linarith
      have hxy : x = y := by rw [hxv, hyv, heq]
      rw [hxy] at hpx
      omega
    · have hle : (round x : ℝ) ≤ x + 1 / 2 := by
        rw [round_eq]
        exact Int.floor_le _
      have : y ≤ x := by
        rw [hyv, ← heq]
        linarith
      have hxy : x = y := le_antisymm h this
      rw [hxy] at hfx
      exact hfx hfy

/-- Evaluation of `pyRound` strictly inside a unit interval centered at an
integer. -/
theorem pyRound_eq_of_lt {n : ℤ} {x : ℝ} (h1 : (n : ℝ) - 1 / 2 < x)
    (h2 : x < (n : ℝ) + 1 / 2) : pyRound x = n := by
  have hf : Int.fract x ≠ 1 / 2 := by
    intro hf
    have hx : x = (⌊x⌋ : ℝ) + 1 / 2 := by
      conv_lhs => rw [← Int.floor_add_fract x, hf]
    rw [hx] at h1 h2
    have ha : (n : ℝ) - 1 < (⌊x⌋ : ℝ) := by linarith
    have hb : (⌊x⌋ : ℝ) < (n : ℝ) := by linarith
    have ha2 : n - 1 < ⌊x⌋ := by exact_mod_cast ha
    have hb2 : ⌊x⌋ < n := by exact_mod_cast hb
    omega
  unfold pyRound
  rw [if_neg hf, round_eq]
  rw [Int.floor_eq_iff]
  constructor
  · linarith
  · linarith

/-- `pyRound` fixes integers. -/
theorem pyRound_intCast (n : ℤ) : pyRound (n : ℝ) = n :=
  pyRound_eq_of_lt (by linarith) (by linarith)

/-- `pyRound2` always produces an integer multiple of 1/100. -/
theorem pyRound2_exists_cents (x : ℝ) : ∃ k : ℤ, pyRound2 x = (k : ℝ) / 100 :=
  ⟨pyRound (x * 100), rfl⟩

/-- `pyRound2` is monotone. -/
theorem pyRound2_mono {x y : ℝ} (h : x ≤ y) : pyRound2 x ≤ pyRound2 y := by
  unfold pyRound2
  have : pyRound (x * 100) ≤ pyRound (y * 100) :=
    pyRound_mono (by linarith)
  have : ((pyRound (x * 100) : ℤ) : ℝ) ≤ ((pyRound (y * 100) : ℤ) : ℝ) := by
    exact_mod_cast this
  linarith

/-- A successful `dget` means the key-value pair is in the list. -/
theorem dget_some_mem {κ β : Type} [BEq κ] [LawfulBEq κ] {m : List (κ × β)} {k : κ} {v : β}
    (h : dget m k = some v) : (k, v) ∈ m := by
  induction m with
  | nil => simp [dget] at h
  | cons p rest ih =>
    obtain ⟨k2, v2⟩ := p
    rw [dget] at h
    by_cases hk : k == k2
    · rw [if_pos hk] at h
      have : k = k2 := eq_of_beq hk
      subst this
      simp at h
      subst h
      exact List.mem_cons_self _ _
    · rw [if_neg hk] at h
      exact List.mem_cons_of_mem _ (ih h)

/-- Looking up a key just inserted finds the inserted value. -/
theorem dget_dinsert {κ β : Type} [BEq κ] [LawfulBEq κ] (m : List (κ × β)) (k : κ) (v : β) :
    dget (dinsert m k v) k = some v := by
  unfold dinsert
  by_cases h : (dget m k).isSome
  · rw [if_pos h]
    induction m with
    | nil => simp [dget] at h
    | cons p rest ih =>
      obtain ⟨k2, v2⟩ := p
      by_cases hk : k = k2
      · subst hk
        rw [List.map_cons, if_pos (beq_self_eq_true k), dget, if_pos (beq_self_eq_true k)]
      · have hkb : (k == k2) = false := beq_false_of_ne hk
        have hkb2 : ((k2, v2).1 == k) = false := beq_false_of_ne (Ne.symm hk)
        rw [dget, hkb] at h
        simp only [Bool.false_eq_true, if_false] at h
        rw [List.map_cons, if_neg (by simp [hkb2]), dget, hkb]
        simp only [Bool.false_eq_true, if_false]
        exact ih h
  · rw [if_neg h]
    induction m with
    | nil => simp [dget]
    | cons p rest ih =>
      obtain ⟨k2, v2⟩ := p
      rw [dget] at h
      by_cases hk : k = k2
      · subst hk
        simp at h
      · have hkb : (k == k2) = false := beq_false_of_ne hk
        rw [hkb] at h
        simp only [Bool.false_eq_true, if_false] at h
        rw [List.cons_append, dget, hkb]
        simp only [Bool.false_eq_true, if_false]
        exact ih h

/-- The starting value bounds a left fold with `max` from below. -/
theorem le_foldl_max (x : ℚ) (xs : List ℚ) : x ≤ xs.foldl max x := by
  induction xs generalizing x with
  | nil => exact le_refl x
  | cons y ys ih =>
    calc x ≤ max x y := le_max_left x y
    _ ≤ ys.foldl max (max x y) := ih (max x y)

/-- Every list element bounds a left fold with `max` from below. -/
theorem mem_le_foldl_max (x : ℚ) (xs : List ℚ) : ∀ y ∈ xs, y ≤ xs.foldl max x := by
  induction xs generalizing x with
  | nil => intro y hy; simp at hy
  | cons z zs ih =>
    intro y hy
    rcases List.mem_cons.mp hy with h | h
    · subst h
      calc y ≤ max x y := le_max_right x y
      _ ≤ zs.foldl max (max x y) := le_foldl_max _ _
    · exact ih (max x z) y h

/-- A left fold with `max` returns its start or one of the elements. -/
theorem foldl_max_mem (x : ℚ) (xs : List ℚ) :
    xs.foldl max x = x ∨ xs.foldl max x ∈ xs := by
  induction xs generalizing x with
  | nil => left; rfl
  | cons y ys ih =>
    rcases ih (max x y) with h | h
    · rcases max_cases x y with ⟨he, _⟩ | ⟨he, _⟩
      · left
        rw [List.foldl_cons, h, he]
      · right
        rw [List.foldl_cons, h, he]
        exact List.mem_cons_self _ _
    · right
      exact List.mem_cons_of_mem _ h

/-- A fold whose step fixes every accumulator on every list element returns
its start. -/
theorem foldl_fixed {α β : Type} (f : β → α → β) (l : List α) (acc : β)
    (h : ∀ p ∈ l, ∀ a, f a p = a) : l.foldl f acc = acc := by
  induction l generalizing acc with
  | nil => rfl
  | cons x xs ih =>
    rw [List.foldl_cons, h x (List.mem_cons_self _ _) acc]
    exact ih acc fun p hp => h p (List.mem_cons_of_mem _ hp)

/-- Unfolding of the descending prefix-length list. -/
theorem descPrefixLengths_succ (n : ℕ) :
    descPrefixLengths (n + 1) = (n + 1) :: descPrefixLengths n := by
  unfold descPrefixLengths
  rw [List.range_succ, List.reverse_append]
  simp

/-- The prefix loop is the first hit of the descending-length scan. -/
theorem region_prefix_loop_eq_findSome (st : EuropeState) (p c : String) (n : ℕ) :
    region_prefix_loop st p c n =
      (descPrefixLengths n).findSome? fun i =>
        (st.regions_dict.find? fun kv => kv.1.startsWith (c ++ "_" ++ p.take i)).map
          fun kv => (kv.2.region, kv.2.place_name) := by
  induction n with
  | zero => rfl
  | succ m ih =>
    rw [descPrefixLengths_succ, List.findSome?_cons, region_prefix_loop]
    cases hf : st.regions_dict.find? fun kv => kv.1.startsWith (c ++ "_" ++ p.take (m + 1)) with
    | none => simpa [hf] using ih
    | some kv => simp [hf]

/-! ## Claim theorems -/

/-- C4: region resolution tries the exact key `country_code + "_" + postal`
first; on a miss it scans prefix lengths descending from `len - 1` to `1`,
returning the first stored key (in table iteration order) starting with
`country_code + "_" + prefix`; and resolution is deterministic, so resolving
the same pair twice against the same table yields identical results. -/
theorem get_region_by_postal_spec (st : EuropeState) (postal_code country_code : String) :
    (∀ ri, dget st.regions_dict (country_code ++ "_" ++ postal_code) = some ri →
      get_region_by_postal st postal_code country_code = some (ri.region, ri.place_name)) ∧
    (dget st.regions_dict (country_code ++ "_" ++ postal_code) = none →
      get_region_by_postal st postal_code country_code =
        (descPrefixLengths (postal_code.length - 1)).findSome? fun i =>
          (st.regions_dict.find? fun kv =>
            kv.1.startsWith (country_code ++ "_" ++ postal_code.take i)).map
            fun kv => (kv.2.region, kv.2.place_name)) ∧
    get_region_by_postal st postal_code country_code =
      get_region_by_postal st postal_code country_code := by
  refine ⟨fun ri h => ?_, fun h => ?_, rfl⟩
  · unfold get_region_by_postal
    rw [h]
  · unfold get_region_by_postal
    rw [h]
    exact region_prefix_loop_eq_findSome st postal_code country_code _

/-- Witness for C4 at a concrete table: exact hit. -/
theorem get_region_by_postal_spec_witness :
    get_region_by_postal exEuropeState "10115" "DE" = some ("DE_WEST", "Berlin") :=
  (get_region_by_postal_spec exEuropeState "10115" "DE").1 ⟨"DE_WEST", "Berlin", "DE"⟩
    (by rfl)

/-- C6: the crisis multiplier is the maximum multiplier over the stored
windows whose `[start_date, end_date]` interval contains today, and 1.0 when
the pair has no windows or none is active. -/
theorem get_crisis_multiplier_spec (st : MultimodalState) (today : ℤ) (o d : String) :
    ((dget st.crisis_coefficients o).bind (fun m => dget m d) = none →
      get_crisis_multiplier st today o d = 1) ∧
    ∀ l, (dget st.crisis_coefficients o).bind (fun m => dget m d) = some l →
      ((∀ c ∈ l, ¬(c.start_date ≤ today ∧ today ≤ c.end_date)) →
        get_crisis_multiplier st today o d = 1) ∧
      (∀ c ∈ l, (c.start_date ≤ today ∧ today ≤ c.end_date) →
        c.multiplier ≤ get_crisis_multiplier st today o d) ∧
      ((∃ c ∈ l, c.start_date ≤ today ∧ today ≤ c.end_date) →
        ∃ c ∈ l, (c.start_date ≤ today ∧ today ≤ c.end_date) ∧
          get_crisis_multiplier st today o d = c.multiplier) := by
  constructor
  · intro h
    unfold get_crisis_multiplier
    rw [h]
  · intro l hl
    have hpred : ∀ c : CrisisInfo,
        (decide (c.start_date ≤ today) && decide (today ≤ c.end_date)) = true ↔
          (c.start_date ≤ today ∧ today ≤ c.end_date) := by
      intro c
      simp
    refine ⟨fun hnone => ?_, fun c hc hact => ?_, fun hex => ?_⟩
    · have hf : l.filter (fun c =>
          decide (c.start_date ≤ today) && decide (today ≤ c.end_date)) = [] :=
        List.filter_eq_nil_iff.mpr fun c hc => by
          rw [hpred c]
          exact hnone c hc
      unfold get_crisis_multiplier
      rw [hl]
      simp [hf]
    · have hcf : c ∈ l.filter (fun c =>
          decide (c.start_date ≤ today) && decide (today ≤ c.end_date)) :=
        List.mem_filter.mpr ⟨hc, (hpred c).mpr hact⟩
      unfold get_crisis_multiplier
      rw [hl]
      cases hmap : (l.filter (fun c =>
          decide (c.start_date ≤ today) && decide (today ≤ c.end_date))).map
          (·.multiplier) with
      | nil =>
        rw [List.map_eq_nil_iff] at hmap
        rw [hmap] at hcf
        simp at hcf
      | cons x xs =>
        simp only [hmap]
        have hmem : c.multiplier ∈ x :: xs := by
          rw [← hmap]
          exact List.mem_map_of_mem _ hcf
        rcases List.mem_cons.mp hmem with h | h
        · rw [h]
          exact le_foldl_max x xs
        · exact mem_le_foldl_max x xs _ h
    · obtain ⟨c, hc, hact⟩ := hex
      have hcf : c ∈ l.filter (fun c =>
          decide (c.start_date ≤ today) && decide (today ≤ c.end_date)) :=
        List.mem_filter.mpr ⟨hc, (hpred c).mpr hact⟩
      unfold get_crisis_multiplier
      rw [hl]
      cases hmap : (l.filter (fun c =>
          decide (c.start_date ≤ today) && decide (today ≤ c.end_date))).map
          (·.multiplier) with
      | nil =>
        rw [List.map_eq_nil_iff] at hmap
        rw [hmap] at hcf
        simp at hcf
      | cons x xs =>
        simp only [hmap]
        have hres : listMax x xs ∈ x :: xs := by
          rcases foldl_max_mem x xs with h | h
          · rw [listMax, h]
            exact List.mem_cons_self _ _
          · exact List.mem_cons_of_mem _ (by rw [listMax]; exact h)
        have : listMax x xs ∈ (l.filter (fun c =>
            decide (c.start_date ≤ today) && decide (today ≤ c.end_date))).map
            (·.multiplier) := by
          rw [hmap]
          exact hres
        obtain ⟨c2, hc2, he2⟩ := List.mem_map.mp this
        have hc2l := (List.mem_filter.mp hc2).1
        have hc2a := (hpred c2).mp (List.mem_filter.mp hc2).2
        exact ⟨c2, hc2l, hc2a, he2.symm⟩

/-- Witness for C6 at a concrete table: two overlapping windows, the
maximum multiplier 1.8 wins. -/
theorem get_crisis_multiplier_spec_witness :
    get_crisis_multiplier exMMCrisis 7 "RegA" "RegB" = 1.8 := by
  obtain ⟨c, hc, _hact, he⟩ :=
    (((get_crisis_multiplier_spec exMMCrisis 7 "RegA" "RegB").2
      [⟨0, 10, 1.5, "w1"⟩, ⟨5, 20, 1.8, "w2"⟩] (by rfl)).2.2
      ⟨⟨0, 10, 1.5, "w1"⟩, by simp, by norm_num⟩)
  have h18 : (⟨5, 20, 1.8, "w2"⟩ : CrisisInfo).multiplier ≤
      get_crisis_multiplier exMMCrisis 7 "RegA" "RegB" :=
    (((get_crisis_multiplier_spec exMMCrisis 7 "RegA" "RegB").2
      [⟨0, 10, 1.5, "w1"⟩, ⟨5, 20, 1.8, "w2"⟩] (by rfl)).2.1
      ⟨5, 20, 1.8, "w2"⟩ (by simp) (by norm_num))
  rcases List.mem_cons.mp hc with h | h
  · rw [h] at he
    simp only [] at he h18
    rw [he] at h18
    norm_num at h18
  · rw [List.mem_singleton] at h
    rw [h] at he
    exact he

/-- C10: when route-override weights exist but none of their index names
matches a loaded freight index, the weighted loop accumulates nothing, the
normalization is skipped (no division by zero), the weighted change is 0 and
the volatility factor `(1 + 0/100)^1.2` is exactly 1. -/
theorem weighted_index_change_no_match (st : MultimodalState) (o d : String)
    (rweights : List (String × RouteWeightInfo))
    (h1 : get_index_weights_for_route st o d = some rweights)
    (h2 : ∀ p ∈ st.freight_indices, dget rweights p.1 = none) :
    calculate_weighted_index_change st o d = 0 ∧
    (1 + calculate_weighted_index_change st o d / 100) ^ VOLATILITY_ALPHA = 1 := by
  have hz : calculate_weighted_index_change st o d = 0 := by
    have hfold :
        st.freight_indices.foldl
          (fun (acc : ℝ × ℝ) (p : String × FreightIndexInfo) =>
            match dget rweights p.1 with
            | some w =>
              let change_percent :=
                (((p.2.current_value : ℝ) - (p.2.base_value : ℝ)) / (p.2.base_value : ℝ)) * 100
              (acc.1 + change_percent * (w.weight : ℝ), acc.2 + (w.weight : ℝ))
            | none => acc)
          (0, 0) = ((0 : ℝ), (0 : ℝ)) := by
      refine foldl_fixed _ _ _ fun p hp a => ?_
      rw [h2 p hp]
    simp only [calculate_weighted_index_change, h1]
    rw [hfold]
    norm_num
  refine ⟨hz, ?_⟩
  rw [hz]
  norm_num [Real.one_rpow]

/-- Witness for C10: an override table naming only SCFI while only FBX is
loaded. -/
theorem weighted_index_change_no_match_witness :
    calculate_weighted_index_change exMMWeights "A" "B" = 0 ∧
    (1 + calculate_weighted_index_change exMMWeights "A" "B" / 100) ^ VOLATILITY_ALPHA = 1 :=
  weighted_index_change_no_match exMMWeights "A" "B" [("SCFI", ⟨1, "d"⟩)] (by rfl)
    (by
      intro p hp
      cases hp with
      | head => rfl
      | tail _ h2 => cases h2)

/-- A successful geocoding run leaves the address resolvable from the
resulting cache. -/
theorem geocode_attempts_cache_lookup (cache : List (String × (ℝ × ℝ)))
    (oracle : ℕ → GeoAttempt) (address : String) (attempts : List ℕ) (calls : ℕ)
    (c : ℝ × ℝ)
    (h : (geocode_attempts cache oracle address attempts calls).coords = some c) :
    dget (geocode_attempts cache oracle address attempts calls).cache address = some c := by
  induction attempts generalizing calls with
  | nil => simp [geocode_attempts] at h
  | cons a rest ih =>
    cases ho : oracle a with
    | found lat lon =>
      simp only [geocode_attempts, ho] at h ⊢
      rw [← h]
      exact dget_dinsert _ _ _
    | notFound =>
      simp only [geocode_attempts, ho] at h ⊢
      by_cases hr : rest.isEmpty
      · rw [if_pos hr] at h
        simp at h
      · rw [if_neg hr] at h ⊢
        exact ih _ h
    | err =>
      simp only [geocode_attempts, ho] at h ⊢
      by_cases hr : rest.isEmpty
      · rw [if_pos hr] at h
        simp at h
      · rw [if_neg hr] at h ⊢
        exact ih _ h

/-- C8: a cached address is answered from the cache with no external call
and no cache mutation or persistence; and once an address resolves
successfully, a second resolution of it is answered from the cache with no
external call and no state change. -/
theorem get_coordinates_cache_spec (cache : List (String × (ℝ × ℝ)))
    (oracle : ℕ → GeoAttempt) (address : String) :
    (∀ coords, dget cache address = some coords →
      get_coordinates cache oracle address = ⟨some coords, cache, 0, 0⟩) ∧
    (∀ c, (get_coordinates cache oracle address).coords = some c →
      ∀ oracle2, get_coordinates (get_coordinates cache oracle address).cache oracle2 address =
        ⟨some c, (get_coordinates cache oracle address).cache, 0, 0⟩) := by
  constructor
  · intro coords h
    unfold get_coordinates
    rw [h]
  · intro c hc oracle2
    have hl : dget (get_coordinates cache oracle address).cache address = some c := by
      cases hg : dget cache address with
      | some c0 =>
        simp only [get_coordinates, hg] at hc ⊢
        exact hc
      | none =>
        simp only [get_coordinates, hg] at hc ⊢
        exact geocode_attempts_cache_lookup _ _ _ _ _ _ hc
    generalize hcc : (get_coordinates cache oracle address).cache = cache2 at hl ⊢
    simp only [get_coordinates, hl]

/-- Witness for C8: a one-entry cache is hit without external calls. -/
theorem get_coordinates_cache_spec_witness :
    get_coordinates [("10115, Berlin, DE", ((52.5 : ℝ), (13.4 : ℝ)))]
        (geoAllErr "10115, Berlin, DE") "10115, Berlin, DE" =
      ⟨some ((52.5 : ℝ), (13.4 : ℝ)), [("10115, Berlin, DE", ((52.5 : ℝ), (13.4 : ℝ)))], 0, 0⟩ :=
  (get_coordinates_cache_spec [("10115, Berlin, DE", ((52.5 : ℝ), (13.4 : ℝ)))]
    (geoAllErr "10115, Berlin, DE") "10115, Berlin, DE").1 ((52.5 : ℝ), (13.4 : ℝ))
    (by simp [dget])

/-- C1: the Europe pipeline computes
`round2(max(rate_ldm * load^0.9, rate_km * d^0.95 * load^0.9) * dist_factor *
min(ldm_factor, weight_factor) * general * seasonal * 1.035 + w * 0.02/1000)`
with chargeable load `max(ldm, w/1850)`, both when a direct rate row exists
(corrected matrix rates) and when the default base rates 350 and 0.45 are
used, provided the month has a seasonal factor in the applicable table. -/
theorem calculate_rate_formula (st : EuropeState) (d l w : ℝ) (f t : String) (m : ℕ)
    (sf : ℚ) (hm : m ≠ 0) :
    (∀ ri, dget st.rates_dict (f, t) = some ri →
      dget ri.seasonal_factors (toString m) = some sf →
      calculate_rate st d l w f t (some m) =
        pyRound2 (
          max ((ri.base_rate_per_ldm : ℝ) * (st.correction_factors.base_rate_ldm_correction : ℝ) *
              max l (w / 1850) ^ (0.9 : ℝ))
            ((ri.base_rate_per_km : ℝ) * (st.correction_factors.base_rate_km_correction : ℝ) *
              d ^ (0.95 : ℝ) * max l (w / 1850) ^ (0.9 : ℝ)) *
          (get_distance_correction_factor st d : ℝ) *
          min ((get_ldm_correction_factor st l : ℚ) : ℝ) ((get_weight_correction_factor st w : ℚ) : ℝ) *
          (st.correction_factors.general_correction : ℝ) * (sf : ℝ) * 1.035 +
          w * 0.02 / 1000)) ∧
    (dget st.rates_dict (f, t) = none →
      dget default_seasonal_factors (toString m) = some sf →
      calculate_rate st d l w f t (some m) =
        pyRound2 (
          max (350 * (st.correction_factors.base_rate_ldm_correction : ℝ) *
              max l (w / 1850) ^ (0.9 : ℝ))
            (0.45 * (st.correction_factors.base_rate_km_correction : ℝ) *
              d ^ (0.95 : ℝ) * max l (w / 1850) ^ (0.9 : ℝ)) *
          (get_distance_correction_factor st d : ℝ) *
          min ((get_ldm_correction_factor st l : ℚ) : ℝ) ((get_weight_correction_factor st w : ℚ) : ℝ) *
          (st.correction_factors.general_correction : ℝ) * (sf : ℝ) * 1.035 +
          w * 0.02 / 1000)) := by
  constructor
  · intro ri hri hsf
    simp only [calculate_rate, hri, hm, if_pos, DENSITY_FACTOR, hsf, ne_eq,
      not_false_eq_true, ite_true]
    congr 1
    push_cast
    ring
  · intro hri hsf
    simp only [calculate_rate, hri, hm, if_pos, DENSITY_FACTOR, hsf, ne_eq,
      not_false_eq_true, ite_true]
    congr 1
    push_cast
    ring

/-- Witness for C1 at a concrete state with a stored rate row. -/
theorem calculate_rate_formula_witness :
    calculate_rate exEuropeState 300 5 1000 "DE_WEST" "FR_NORTH" (some 6) =
      pyRound2 (
        max ((exRateInfo.base_rate_per_ldm : ℝ) *
            (exEuropeState.correction_factors.base_rate_ldm_correction : ℝ) *
            max (5 : ℝ) ((1000 : ℝ) / 1850) ^ (0.9 : ℝ))
          ((exRateInfo.base_rate_per_km : ℝ) *
            (exEuropeState.correction_factors.base_rate_km_correction : ℝ) *
            (300 : ℝ) ^ (0.95 : ℝ) * max (5 : ℝ) ((1000 : ℝ) / 1850) ^ (0.9 : ℝ)) *
        (get_distance_correction_factor exEuropeState 300 : ℝ) *
        min ((get_ldm_correction_factor exEuropeState 5 : ℚ) : ℝ)
          ((get_weight_correction_factor exEuropeState 1000 : ℚ) : ℝ) *
        (exEuropeState.correction_factors.general_correction : ℝ) * ((1 : ℚ) : ℝ) * 1.035 +
        (1000 : ℝ) * 0.02 / 1000) :=
  (calculate_rate_formula exEuropeState 300 5 1000 "DE_WEST" "FR_NORTH" 6 1 (by norm_num)).1
    exRateInfo (by rfl) (by rfl)

/-- C5 (amended): the matrix distance is total and follows the fallback
order: stored direct distance; else stored reverse distance; else, when both
regions have a nonempty details record and all four center coordinates are
present AND nonzero (Python truthiness), the haversine distance times the
road factor 1.3 rounded to 1 decimal; else the default 1000 — in particular
a stored center latitude of exactly 0 falls through to the default. -/
theorem get_distance_from_matrix_spec (st : EuropeState) (f t : String) :
    (∀ ri, dget st.rates_dict (f, t) = some ri →
      get_distance_from_matrix st f t = (ri.distance_km : ℝ)) ∧
    (dget st.rates_dict (f, t) = none →
      ∀ ri, dget st.rates_dict (t, f) = some ri →
        get_distance_from_matrix st f t = (ri.distance_km : ℝ)) ∧
    (dget st.rates_dict (f, t) = none → dget st.rates_dict (t, f) = none →
      ∀ fd td, dget st.region_details f = some fd → dget st.region_details t = some td →
        ∀ la lo la2 lo2 : ℚ,
          dget fd "center_lat" = some la → la ≠ 0 →
          dget fd "center_lon" = some lo → lo ≠ 0 →
          dget td "center_lat" = some la2 → la2 ≠ 0 →
          dget td "center_lon" = some lo2 → lo2 ≠ 0 →
          get_distance_from_matrix st f t =
            pyRound1 (haversine_km (la : ℝ) (lo : ℝ) (la2 : ℝ) (lo2 : ℝ) * 1.3)) ∧
    (dget st.rates_dict (f, t) = none → dget st.rates_dict (t, f) = none →
      dget st.region_details f = none →
      get_distance_from_matrix st f t = 1000) ∧
    (dget st.rates_dict (f, t) = none → dget st.rates_dict (t, f) = none →
      ∀ fd, dget st.region_details f = some fd →
        dget fd "center_lat" = some 0 →
        get_distance_from_matrix st f t = 1000) := by
  refine ⟨fun ri hri => ?_, fun h1 ri hri => ?_, ?_, fun h1 h2 hfd => ?_, ?_⟩
  · simp only [get_distance_from_matrix, hri]
  · simp only [get_distance_from_matrix, h1, hri]
  · intro h1 h2 fd td hfd htd la lo la2 lo2 hla hla0 hlo hlo0 hla2 hla20 hlo2 hlo20
    have hfe : fd.isEmpty = false := by
      cases hc : fd with
      | nil =>
        rw [hc] at hla
        simp [dget] at hla
      | cons x xs => rfl
    have hte : td.isEmpty = false := by
      cases hc : td with
      | nil =>
        rw [hc] at hla2
        simp [dget] at hla2
      | cons x xs => rfl
    have htr : ∀ q : ℚ, q ≠ 0 → truthyNum (some q) = true := by
      intro q hq
      simp [truthyNum, hq]
    simp only [get_distance_from_matrix, h1, h2, hfd, htd, Option.getD_some, hfe, hte,
      hla, hlo, hla2, hlo2, htr la hla0, htr lo hlo0, htr la2 hla20, htr lo2 hlo20,
      Bool.not_false, Bool.and_self, if_true, haversine_km]
  · have hfe : ((dget st.region_details f).getD []).isEmpty = true := by
      rw [hfd]
      rfl
    simp only [get_distance_from_matrix, h1, h2, hfe, Bool.not_true, Bool.false_and,
      Bool.false_eq_true, if_false]
  · intro h1 h2 fd hfd hla
    have htr : truthyNum (some (0 : ℚ)) = false := rfl
    simp only [get_distance_from_matrix, h1, h2, hfd, Option.getD_some, hla, htr,
      Bool.false_and]
    simp

/-- Witness for C5: the direct stored distance is returned. -/
theorem get_distance_from_matrix_spec_witness :
    get_distance_from_matrix exEuropeState "DE_WEST" "FR_NORTH" = ((1200 : ℚ) : ℝ) :=
  (get_distance_from_matrix_spec exEuropeState "DE_WEST" "FR_NORTH").1 exRateInfo (by rfl)

/-- Counterexample to C5 as stated: both regions carry stored center
coordinates (latitude 0, longitude 10), so the claim prescribes the rounded
road-inflated haversine distance (which is 0 here, the two centers being
equal), but the code returns the default 1000 because latitude 0 is falsy. -/
theorem get_distance_from_matrix_cex :
    dget exStZero.region_details "A" = some [("center_lat", 0), ("center_lon", 10)] ∧
    dget exStZero.region_details "B" = some [("center_lat", 0), ("center_lon", 10)] ∧
    get_distance_from_matrix exStZero "A" "B" = 1000 ∧
    pyRound1 (haversine_km 0 10 0 10 * 1.3) = 0 ∧
    (1000 : ℝ) ≠ 0 := by
  refine ⟨rfl, rfl, ?_, ?_, by norm_num⟩
  · have h1 : dget exStZero.rates_dict ("A", "B") = none := rfl
    have h2 : dget exStZero.rates_dict ("B", "A") = none := rfl
    have hA : dget exStZero.region_details "A" =
        some [("center_lat", 0), ("center_lon", 10)] := rfl
    have hla : dget [(("center_lat" : String), (0 : ℚ)), ("center_lon", 10)] "center_lat" =
        some 0 := rfl
    have htr : truthyNum (some (0 : ℚ)) = false := rfl
    simp only [get_distance_from_matrix, h1, h2, hA, Option.getD_some, hla, htr,
      Bool.false_and]
    simp
  · have hh : haversine_km 0 10 0 10 = 0 := by
      simp [haversine_km, radians, atan2, Real.sqrt_zero, Real.sqrt_one, Real.arctan_zero,
        sub_self]
    rw [hh]
    have h0 : pyRound (0 : ℝ) = 0 := by
      have := pyRound_intCast 0
      simpa using this
    simp [pyRound1, h0]

/-- The distance-bucket factor is nonnegative for nonnegative tables. -/
theorem get_distance_correction_factor_nonneg (st : EuropeState)
    (h : CorrectionFactorsNonneg st.correction_factors) (d : ℝ) :
    0 ≤ get_distance_correction_factor st d := by
  obtain ⟨h1, h2, h3, h4, h5, h6, h7, h8, h9, h10, h11, h12, h13, h14, h15, h16⟩ := h
  unfold get_distance_correction_factor
  split_ifs <;> assumption

/-- The LDM-bucket factor is nonnegative for nonnegative tables. -/
theorem get_ldm_correction_factor_nonneg (st : EuropeState)
    (h : CorrectionFactorsNonneg st.correction_factors) (l : ℝ) :
    0 ≤ get_ldm_correction_factor st l := by
  obtain ⟨h1, h2, h3, h4, h5, h6, h7, h8, h9, h10, h11, h12, h13, h14, h15, h16⟩ := h
  unfold get_ldm_correction_factor
  split_ifs <;> assumption

/-- The weight-bucket factor is nonnegative for nonnegative tables. -/
theorem get_weight_correction_factor_nonneg (st : EuropeState)
    (h : CorrectionFactorsNonneg st.correction_factors) (w : ℝ) :
    0 ≤ get_weight_correction_factor st w := by
  obtain ⟨h1, h2, h3, h4, h5, h6, h7, h8, h9, h10, h11, h12, h13, h14, h15, h16⟩ := h
  unfold get_weight_correction_factor
  split_ifs <;> assumption

/-- The hard-coded default seasonal factors are nonnegative. -/
theorem default_seasonal_factors_nonneg : ∀ p ∈ default_seasonal_factors, 0 ≤ p.2 := by
  intro p hp
  fin_cases hp <;> norm_num

/-- Monotonicity of the tail of the Europe pipeline (seasonal multiplication,
insurance, CO2) in the running cost. -/
theorem europe_tail_mono (b1 b2 co : ℝ) (sfs : List (String × ℚ)) (month : Option ℕ)
    (hb : b1 ≤ b2) (hnn : ∀ p ∈ sfs, 0 ≤ p.2) :
    (let bc1 :=
      match month with
      | none => b1
      | some m =>
        if m ≠ 0 then
          match dget sfs (toString m) with
          | some fv => b1 * (fv : ℝ)
          | none => b1
        else b1
     bc1 + bc1 * 0.035 + co) ≤
    (let bc2 :=
      match month with
      | none => b2
      | some m =>
        if m ≠ 0 then
          match dget sfs (toString m) with
          | some fv => b2 * (fv : ℝ)
          | none => b2
        else b2
     bc2 + bc2 * 0.035 + co) := by
  have hstep : (match month with
      | none => b1
      | some m =>
        if m ≠ 0 then
          match dget sfs (toString m) with
          | some fv => b1 * (fv : ℝ)
          | none => b1
        else b1) ≤
      (match month with
      | none => b2
      | some m =>
        if m ≠ 0 then
          match dget sfs (toString m) with
          | some fv => b2 * (fv : ℝ)
          | none => b2
        else b2) := by
    cases month with
    | none => exact hb
    | some m =>
      dsimp only
      by_cases hm : m ≠ 0
      · rw [if_pos hm, if_pos hm]
        cases hsf : dget sfs (toString m) with
        | none => exact hb
        | some fv =>
          have hmem := dget_some_mem hsf
          have hfv : (0 : ℝ) ≤ (fv : ℝ) := by
            exact_mod_cast hnn _ hmem
          exact mul_le_mul_of_nonneg_right hb hfv
      · rw [if_neg hm, if_neg hm]
        exact hb
  simp only []
  linarith

/-- C7: with nonnegative reference data and cargo sizes, the Europe price is
monotonically non-decreasing in the distance as long as both distances fall
in the same distance bucket. -/
theorem calculate_rate_mono_distance (st : EuropeState) (d1 d2 l w : ℝ) (f t : String)
    (month : Option ℕ) (hst : EuropeStateNonneg st) (hl : 0 ≤ l)
    (hd1 : 0 ≤ d1) (hd : d1 < d2)
    (hbucket : get_distance_correction_factor st d1 = get_distance_correction_factor st d2) :
    calculate_rate st d1 l w f t month ≤ calculate_rate st d2 l w f t month := by
  obtain ⟨hcf, hrates⟩ := hst
  have hch : (0 : ℝ) ≤ max l (w / DENSITY_FACTOR) := le_trans hl (le_max_left _ _)
  have hch9 : (0 : ℝ) ≤ max l (w / DENSITY_FACTOR) ^ (0.9 : ℝ) := Real.rpow_nonneg hch _
  have hd95 : d1 ^ (0.95 : ℝ) ≤ d2 ^ (0.95 : ℝ) :=
    Real.rpow_le_rpow hd1 hd.le (by norm_num)
  have hdf : (0 : ℝ) ≤ ((get_distance_correction_factor st d2 : ℚ) : ℝ) := by
    exact_mod_cast get_distance_correction_factor_nonneg st hcf d2
  have hvc : (0 : ℝ) ≤
      ((min (get_ldm_correction_factor st l) (get_weight_correction_factor st w) : ℚ) : ℝ) := by
    exact_mod_cast le_min (get_ldm_correction_factor_nonneg st hcf l)
      (get_weight_correction_factor_nonneg st hcf w)
  have hgen : (0 : ℝ) ≤ ((st.correction_factors.general_correction : ℚ) : ℝ) := by
    exact_mod_cast hcf.2.2.1
  have hcore : ∀ brl brk : ℚ, 0 ≤ brl → 0 ≤ brk →
      max ((brl : ℝ) * max l (w / DENSITY_FACTOR) ^ (0.9 : ℝ))
          ((brk : ℝ) * d1 ^ (0.95 : ℝ) * max l (w / DENSITY_FACTOR) ^ (0.9 : ℝ)) *
        ((get_distance_correction_factor st d1 : ℚ) : ℝ) *
        ((min (get_ldm_correction_factor st l) (get_weight_correction_factor st w) : ℚ) : ℝ) *
        ((st.correction_factors.general_correction : ℚ) : ℝ) ≤
      max ((brl : ℝ) * max l (w / DENSITY_FACTOR) ^ (0.9 : ℝ))
          ((brk : ℝ) * d2 ^ (0.95 : ℝ) * max l (w / DENSITY_FACTOR) ^ (0.9 : ℝ)) *
        ((get_distance_correction_factor st d2 : ℚ) : ℝ) *
        ((min (get_ldm_correction_factor st l) (get_weight_correction_factor st w) : ℚ) : ℝ) *
        ((st.correction_factors.general_correction : ℚ) : ℝ) := by
    intro brl brk hbrl hbrk
    rw [hbucket]
    have hbrkR : (0 : ℝ) ≤ (brk : ℝ) := by exact_mod_cast hbrk
    have hmax : max ((brl : ℝ) * max l (w / DENSITY_FACTOR) ^ (0.9 : ℝ))
        ((brk : ℝ) * d1 ^ (0.95 : ℝ) * max l (w / DENSITY_FACTOR) ^ (0.9 : ℝ)) ≤
        max ((brl : ℝ) * max l (w / DENSITY_FACTOR) ^ (0.9 : ℝ))
        ((brk : ℝ) * d2 ^ (0.95 : ℝ) * max l (w / DENSITY_FACTOR) ^ (0.9 : ℝ)) :=
      max_le_max (le_refl _)
        (mul_le_mul_of_nonneg_right (mul_le_mul_of_nonneg_left hd95 hbrkR) hch9)
    exact mul_le_mul_of_nonneg_right
      (mul_le_mul_of_nonneg_right (mul_le_mul_of_nonneg_right hmax hdf) hvc) hgen
  cases hri : dget st.rates_dict (f, t) with
  | none =>
    simp only [calculate_rate, hri]
    apply pyRound2_mono
    exact europe_tail_mono _ _ _ _ _
      (hcore _ _ (mul_nonneg (by norm_num) hcf.1) (mul_nonneg (by norm_num) hcf.2.1))
      default_seasonal_factors_nonneg
  | some ri =>
    have hrinn := hrates _ (dget_some_mem hri)
    simp only [calculate_rate, hri]
    apply pyRound2_mono
    exact europe_tail_mono _ _ _ _ _
      (hcore _ _ (mul_nonneg hrinn.1 hcf.1) (mul_nonneg hrinn.2.1 hcf.2.1))
      hrinn.2.2

/-- Witness for C7: 100 km vs 200 km in the 0-500 bucket. -/
theorem calculate_rate_mono_distance_witness :
    (100 : ℝ) < 200 ∧
    calculate_rate exEuropeState 100 5 1000 "DE_WEST" "FR_NORTH" (some 6) ≤
      calculate_rate exEuropeState 200 5 1000 "DE_WEST" "FR_NORTH" (some 6) :=
  ⟨by norm_num,
    calculate_rate_mono_distance exEuropeState 100 200 5 1000 "DE_WEST" "FR_NORTH" (some 6)
      (by
        constructor
        · norm_num [CorrectionFactorsNonneg, cfOnes, exEuropeState]
        · intro p hp
          norm_num [exEuropeState] at hp
          rw [hp]
          refine ⟨by norm_num [exRateInfo], by norm_num [exRateInfo], ?_⟩
          intro q hq
          norm_num [exRateInfo] at hq
          rw [hq]
          norm_num)
      (by norm_num) (by norm_num) (by norm_num)
      (by norm_num [get_distance_correction_factor])⟩

/-- C2 (amended): in the multimodal pipeline the fuel surcharge percentage
is applied to the rate adjusted by volatility and crisis only — BEFORE the
seasonal multiplication; the seasonal factor then multiplies the rate but
not the surcharge; ecological and congestion charges are added as fixed
amounts. -/
theorem calculate_freight_rate_order (st : MultimodalState) (today : ℤ) (now_month : ℕ)
    (origin destination container_type : String) (weight : ℝ)
    (po pd : PortInfo) (br : BasicRateRow) (fs : FuelSurchargeInfo)
    (hpo : dget st.ports origin = some po) (hpd : dget st.ports destination = some pd)
    (hbr : get_basic_rate st po.region pd.region container_type = some br)
    (hfs : get_fuel_surcharge st po.region pd.region = some fs) :
    ∃ r, calculate_freight_rate st today now_month origin destination container_type weight =
        .ok r ∧
      r.total_rate =
        (pyRound (
          (br.avg_rate : ℝ) *
            ((1 + calculate_weighted_index_change st po.region pd.region / 100) ^
              VOLATILITY_ALPHA) *
            ((get_crisis_multiplier st today po.region pd.region : ℚ) : ℝ) *
            ((seasonal_factor_or_one st po.region pd.region
                (get_current_quarter now_month) : ℚ) : ℝ) +
          (br.avg_rate : ℝ) *
            ((1 + calculate_weighted_index_change st po.region pd.region / 100) ^
              VOLATILITY_ALPHA) *
            ((get_crisis_multiplier st today po.region pd.region : ℚ) : ℝ) *
            (((fs.min_percent : ℝ) + (fs.max_percent : ℝ)) / 2 / 100) +
          ((eco_charges_total st po.region container_type : ℚ) : ℝ) +
          ((eco_charges_total st pd.region container_type : ℚ) : ℝ) +
          ((congestion_amount st origin container_type : ℚ) : ℝ) +
          ((congestion_amount st destination container_type : ℚ) : ℝ)) : ℝ) := by
  simp only [calculate_freight_rate, hpo, hpd, hbr, hfs]
  refine ⟨_, rfl, ?_⟩
  dsimp only

/-- Witness for C2 (amended) at a concrete state. -/
theorem calculate_freight_rate_order_witness :
    ∃ r, calculate_freight_rate exMM 0 1 "P1" "P2" "40hc" 20000 = .ok r ∧
      r.total_rate =
        (pyRound (
          (exBRR.avg_rate : ℝ) *
            ((1 + calculate_weighted_index_change exMM exPort1.region exPort2.region / 100) ^
              VOLATILITY_ALPHA) *
            ((get_crisis_multiplier exMM 0 exPort1.region exPort2.region : ℚ) : ℝ) *
            ((seasonal_factor_or_one exMM exPort1.region exPort2.region
                (get_current_quarter 1) : ℚ) : ℝ) +
          (exBRR.avg_rate : ℝ) *
            ((1 + calculate_weighted_index_change exMM exPort1.region exPort2.region / 100) ^
              VOLATILITY_ALPHA) *
            ((get_crisis_multiplier exMM 0 exPort1.region exPort2.region : ℚ) : ℝ) *
            (((exFS.min_percent : ℝ) + (exFS.max_percent : ℝ)) / 2 / 100) +
          ((eco_charges_total exMM exPort1.region "40hc" : ℚ) : ℝ) +
          ((eco_charges_total exMM exPort2.region "40hc" : ℚ) : ℝ) +
          ((congestion_amount exMM "P1" "40hc" : ℚ) : ℝ) +
          ((congestion_amount exMM "P2" "40hc" : ℚ) : ℝ)) : ℝ) :=
  calculate_freight_rate_order exMM 0 1 "P1" "P2" "40hc" 20000 exPort1 exPort2 exBRR exFS
    rfl rfl rfl rfl

/-- Counterexample to C2 as stated: with base rate 1000, volatility 1,
crisis 1, seasonal factor 2 and a 10% fuel range, the code quotes 2100
(fuel computed before the seasonal multiplication), while the claim's
order — fuel applied to the fully adjusted cost — yields 2200. -/
theorem calculate_freight_rate_order_cex :
    (∃ r, calculate_freight_rate exMM 0 1 "P1" "P2" "40hc" 20000 = .ok r ∧
      r.total_rate = 2100) ∧
    spec_total_rate_fuel_after_seasonal 1000
      ((1 + calculate_weighted_index_change exMM "RegA" "RegB" / 100) ^ VOLATILITY_ALPHA)
      1 2 ((10 + 10) / 2 / 100) 0 0 0 0 = 2200 ∧
    (2100 : ℝ) ≠ 2200 := by
  have hwic : calculate_weighted_index_change exMM "RegA" "RegB" = 0 := by
    have hroute : get_index_weights_for_route exMM "RegA" "RegB" = none := rfl
    have hidx : exMM.freight_indices = [] := rfl
    simp only [calculate_weighted_index_change, hroute, hidx, List.foldl_nil]
    norm_num
  have hvf0 : ((1 : ℝ) + 0 / 100) ^ VOLATILITY_ALPHA = 1 := by
    norm_num [Real.one_rpow]
  refine ⟨?_, ?_, by norm_num⟩
  · have hpo : dget exMM.ports "P1" = some ⟨"Port One", "C1", "RegA", 0, 0⟩ := rfl
    have hpd : dget exMM.ports "P2" = some ⟨"Port Two", "C2", "RegB", 0, 10⟩ := rfl
    have hbr : get_basic_rate exMM "RegA" "RegB" "40hc" = some ⟨1000, "X", "Y"⟩ := rfl
    have hfs : get_fuel_surcharge exMM "RegA" "RegB" = some ⟨10, 10, "d"⟩ := rfl
    have hcm : get_crisis_multiplier exMM 0 "RegA" "RegB" = 1 := rfl
    have hsf : seasonal_factor_or_one exMM "RegA" "RegB" (get_current_quarter 1) = 2 := rfl
    have heco1 : eco_charges_total exMM "RegA" "40hc" = 0 := by
      have e1 : get_ecological_charge exMM "RegA" "ECA" "40hc" = none := rfl
      have e2 : get_ecological_charge exMM "RegA" "CLS" "40hc" = none := rfl
      simp only [eco_charges_total, e1, e2]
      norm_num
    have heco2 : eco_charges_total exMM "RegB" "40hc" = 0 := by
      have e1 : get_ecological_charge exMM "RegB" "ECA" "40hc" = none := rfl
      have e2 : get_ecological_charge exMM "RegB" "CLS" "40hc" = none := rfl
      simp only [eco_charges_total, e1, e2]
      norm_num
    have hcg1 : congestion_amount exMM "P1" "40hc" = 0 := rfl
    have hcg2 : congestion_amount exMM "P2" "40hc" = 0 := rfl
    simp only [calculate_freight_rate, hpo, hpd, hbr, hfs, hcm, hsf, heco1, heco2,
      hcg1, hcg2, hwic, hvf0]
    refine ⟨_, rfl, ?_⟩
    dsimp only
    rw [show (2100 : ℝ) = ((2100 : ℤ) : ℝ) by norm_num]
    congr 1
    apply pyRound_eq_of_lt
    · push_cast
      norm_num
    · push_cast
      norm_num
  · rw [hwic, hvf0]
    simp only [spec_total_rate_fuel_after_seasonal]
    rw [show (2200 : ℝ) = ((2200 : ℤ) : ℝ) by norm_num]
    congr 1
    apply pyRound_eq_of_lt
    · push_cast
      norm_num
    · push_cast
      norm_num

/-- C3 (amended): the Europe calculator's rate is rounded to 2 decimal
places (an integer multiple of 0.01); the multimodal calculator's total_rate
is rounded to the nearest whole number (an integer), not to 2 decimals. -/
theorem final_rounding_amended :
    (∀ (st : EuropeState) (d l w : ℝ) (f t : String) (mo : Option ℕ),
      ∃ k : ℤ, calculate_rate st d l w f t mo = (k : ℝ) / 100) ∧
    (∀ (st : MultimodalState) (today : ℤ) (nm : ℕ) (o dst ct : String) (wt : ℝ)
      (r : FreightRateResult),
      calculate_freight_rate st today nm o dst ct wt = .ok r →
      ∃ n : ℤ, r.total_rate = (n : ℝ)) := by
  constructor
  · intro st d l w f t mo
    cases hri : dget st.rates_dict (f, t) with
    | none =>
      simp only [calculate_rate, hri]
      exact pyRound2_exists_cents _
    | some ri =>
      simp only [calculate_rate, hri]
      exact pyRound2_exists_cents _
  · intro st today nm o dst ct wt r h
    cases hpo : dget st.ports o with
    | none =>
      simp only [calculate_freight_rate, hpo] at h
      exact (Except.noConfusion h)
    | some po =>
      cases hpd : dget st.ports dst with
      | none =>
        simp only [calculate_freight_rate, hpd, hpo] at h
        exact (Except.noConfusion h)
      | some pd =>
        simp only [calculate_freight_rate, hpo, hpd, Except.ok.injEq] at h
        subst h
        exact ⟨pyRound _, rfl⟩

/-- Witness for C3 (amended) at concrete inputs for both calculators. -/
theorem final_rounding_amended_witness :
    (∃ k : ℤ, calculate_rate exEuropeState 300 5 1000 "DE_WEST" "FR_NORTH" (some 6) =
      (k : ℝ) / 100) ∧
    (∃ n : ℤ, ∃ r, calculate_freight_rate exMM 0 1 "P1" "P2" "40hc" 20000 = .ok r ∧
      r.total_rate = (n : ℝ)) := by
  constructor
  · exact final_rounding_amended.1 exEuropeState 300 5 1000 "DE_WEST" "FR_NORTH" (some 6)
  · have hok : ∃ r, calculate_freight_rate exMM 0 1 "P1" "P2" "40hc" 20000 = .ok r := by
      have hpo : dget exMM.ports "P1" = some ⟨"Port One", "C1", "RegA", 0, 0⟩ := rfl
      have hpd : dget exMM.ports "P2" = some ⟨"Port Two", "C2", "RegB", 0, 10⟩ := rfl
      simp only [calculate_freight_rate, hpo, hpd]
      exact ⟨_, rfl⟩
    obtain ⟨r, hr⟩ := hok
    obtain ⟨n, hn⟩ := final_rounding_amended.2 exMM 0 1 "P1" "P2" "40hc" 20000 r hr
    exact ⟨n, r, hr, hn⟩

/-- Counterexample to C3 as stated: with base rate 1000 and an ecological
charge of 0.56 the raw multimodal total is 1000.56; rounding to 2 decimals
would keep 1000.56, but the code rounds to the whole number 1001. -/
theorem final_rounding_cex :
    (∃ r, calculate_freight_rate exMMFraction 0 1 "P1" "P2" "40hc" 20000 = .ok r ∧
      r.total_rate = 1001) ∧
    pyRound2 (1000 + 0.56) = 1000.56 ∧
    (1001 : ℝ) ≠ 1000.56 := by
  have hvf0 : ((1 : ℝ) + 0 / 100) ^ VOLATILITY_ALPHA = 1 := by
    norm_num [Real.one_rpow]
  refine ⟨?_, ?_, by norm_num⟩
  · have hwic : calculate_weighted_index_change exMMFraction "RegA" "RegB" = 0 := by
      have hroute : get_index_weights_for_route exMMFraction "RegA" "RegB" = none := rfl
      have hidx : exMMFraction.freight_indices = [] := rfl
      simp only [calculate_weighted_index_change, hroute, hidx, List.foldl_nil]
      norm_num
    have hpo : dget exMMFraction.ports "P1" = some ⟨"Port One", "C1", "RegA", 0, 0⟩ := rfl
    have hpd : dget exMMFraction.ports "P2" = some ⟨"Port Two", "C2", "RegB", 0, 10⟩ := rfl
    have hbr : get_basic_rate exMMFraction "RegA" "RegB" "40hc" = some ⟨1000, "X", "Y"⟩ := rfl
    have hfs : get_fuel_surcharge exMMFraction "RegA" "RegB" = none := rfl
    have hcm : get_crisis_multiplier exMMFraction 0 "RegA" "RegB" = 1 := rfl
    have hsf : seasonal_factor_or_one exMMFraction "RegA" "RegB" (get_current_quarter 1) = 1 :=
      rfl
    have heco1 : eco_charges_total exMMFraction "RegA" "40hc" = 0.56 := by
      have e1 : get_ecological_charge exMMFraction "RegA" "ECA" "40hc" =
          some ⟨0.56, "EUR", "d"⟩ := rfl
      have e2 : get_ecological_charge exMMFraction "RegA" "CLS" "40hc" = none := rfl
      simp only [eco_charges_total, e1, e2]
      norm_num
    have heco2 : eco_charges_total exMMFraction "RegB" "40hc" = 0 := by
      have e1 : get_ecological_charge exMMFraction "RegB" "ECA" "40hc" = none := rfl
      have e2 : get_ecological_charge exMMFraction "RegB" "CLS" "40hc" = none := rfl
      simp only [eco_charges_total, e1, e2]
      norm_num
    have hcg1 : congestion_amount exMMFraction "P1" "40hc" = 0 := rfl
    have hcg2 : congestion_amount exMMFraction "P2" "40hc" = 0 := rfl
    simp only [calculate_freight_rate, hpo, hpd, hbr, hfs, hcm, hsf, heco1, heco2,
      hcg1, hcg2, hwic, hvf0]
    refine ⟨_, rfl, ?_⟩
    dsimp only
    rw [show (1001 : ℝ) = ((1001 : ℤ) : ℝ) by norm_num]
    congr 1
    apply pyRound_eq_of_lt
    · push_cast
      norm_num
    · push_cast
      norm_num
  · unfold pyRound2
    rw [show ((1000 : ℝ) + 0.56) * 100 = 100056 by norm_num,
      show (100056 : ℝ) = ((100056 : ℤ) : ℝ) by norm_num,
      pyRound_intCast]
    norm_num

/-- C9 (amended): the Europe entry point rejects a request exactly when the
origin and destination carry the same country code AND the same postal code
(regardless of what the regions resolve to), returning the error dict with
message "Origin and destination cannot be the same." before any external
geocoding or routing call (0 external calls). -/
theorem same_origin_check_amended (st : EuropeState) (geoOracle : String → ℕ → GeoAttempt)
    (roadOracle : ℕ → RoadAttempt) (m : ℕ) (fc fp tc tp : String) (l w : ℝ)
    (hc : fc = tc) (hp : fp = tp) :
    get_rate_of_transportation st geoOracle roadOracle m fc fp tc tp l w =
      (.error "Origin and destination cannot be the same.", 0) := by
  subst hc
  subst hp
  simp only [get_rate_of_transportation, beq_self_eq_true, Bool.and_self, if_true]

/-- Witness for C9 (amended): identical country and postal codes. -/
theorem same_origin_check_amended_witness :
    get_rate_of_transportation exStSameRegion geoAllErr roadAllErr 6 "DE" "10" "DE" "10"
        5 1000 =
      (.error "Origin and destination cannot be the same.", 0) :=
  same_origin_check_amended exStSameRegion geoAllErr roadAllErr 6 "DE" "10" "DE" "10"
    5 1000 rfl rfl

/-- Counterexample to C9 as stated: postal code 10 resolves to region R in
both DE and FR, so origin and destination resolve to the same region with
the same postal code, yet the request is not rejected — it proceeds to
six external geocoding attempts and returns a quote. -/
theorem same_origin_check_cex :
    (get_region_by_postal exStSameRegion "10" "DE").map Prod.fst = some "R" ∧
    (get_region_by_postal exStSameRegion "10" "FR").map Prod.fst = some "R" ∧
    (get_rate_of_transportation exStSameRegion geoAllErr roadAllErr 6
      "DE" "10" "FR" "10" 5 1000).1.isError = false ∧
    (get_rate_of_transportation exStSameRegion geoAllErr roadAllErr 6
      "DE" "10" "FR" "10" 5 1000).2 = 6 := by
  have hne : (("DE" : String) == "FR") = false := rfl
  have hr1 : get_region_by_postal exStSameRegion "10" "DE" = some ("R", "P") := rfl
  have hr2 : get_region_by_postal exStSameRegion "10" "FR" = some ("R", "Q") := rfl
  have hgeo1 : get_coordinates exStSameRegion.geocode_cache
      (geoAllErr ("10" ++ ", " ++ "P" ++ ", " ++ "DE")) ("10" ++ ", " ++ "P" ++ ", " ++ "DE") =
      ⟨none, [], 3, 0⟩ := rfl
  have hgeo2 : get_coordinates ([] : List (String × (ℝ × ℝ)))
      (geoAllErr ("10" ++ ", " ++ "Q" ++ ", " ++ "FR")) ("10" ++ ", " ++ "Q" ++ ", " ++ "FR") =
      ⟨none, [], 3, 0⟩ := rfl
  refine ⟨rfl, rfl, ?_, ?_⟩
  · simp only [get_rate_of_transportation, hne, Bool.false_and, Bool.false_eq_true,
      if_false, hr1, hr2, hgeo1, hgeo2, TransportOutcome.isError]
  · simp only [get_rate_of_transportation, hne, Bool.false_and, Bool.false_eq_true,
      if_false, hr1, hr2, hgeo1, hgeo2]
